import Mathlib

/-! # libE57Format: the CompressedVector node

A shallow embedding of `src/src/CompressedVectorNodeImpl.cpp` and of the error codes of
`src/include/E57Exception.h`.

Conventions of the embedding.

* A `std::shared_ptr` that may be null is an `Option`; a pointer that the code dereferences
  without a test (`prototype->isRoot()`) is a plain value.
* A member function that can `throw E57_EXCEPTION2( code, context )` returns
  `Except ErrorCode _`; the context string of the exception (path names, file names, counters)
  is not modelled, only the code is.
* A member function that mutates `*this` takes the object and returns the new object; a function
  that throws leaves the object as it was, since every `throw` of the file precedes the
  assignment it guards.
* A virtual call into a node class whose source is not given (`isTypeEquivalent`, `writeXml`
  on the prototype and codecs nodes) is a parameter of the function that makes the call;
  `setAttachedRecursive` of those classes is a definition marked as modelled. A call through a
  null pointer has no result, `none`.
* The destination container of a node is held through a weak pointer. Pointer identity of
  containers is a `Nat`; a member function that reads the container (`writerCount()`,
  `isWriter()`, open state) takes the container object as an explicit argument.
-/

namespace e57

/-! ## Error codes (`E57Exception.h`) -/

/-- Numeric error identifiers: the non-deprecated enumerators of `enum ErrorCode`. -/
inductive ErrorCode where
  | Success
  | ErrorBadCVHeader
  | ErrorBadCVPacket
  | ErrorChildIndexOutOfBounds
  | ErrorSetTwice
  | ErrorHomogeneousViolation
  | ErrorValueNotRepresentable
  | ErrorScaledValueNotRepresentable
  | ErrorReal64TooLarge
  | ErrorExpectingNumeric
  | ErrorExpectingUString
  | ErrorInternal
  | ErrorBadXMLFormat
  | ErrorXMLParser
  | ErrorBadAPIArgument
  | ErrorFileReadOnly
  | ErrorBadChecksum
  | ErrorOpenFailed
  | ErrorCloseFailed
  | ErrorReadFailed
  | ErrorWriteFailed
  | ErrorSeekFailed
  | ErrorPathUndefined
  | ErrorBadBuffer
  | ErrorNoBufferForElement
  | ErrorBufferSizeMismatch
  | ErrorBufferDuplicatePathName
  | ErrorBadFileSignature
  | ErrorUnknownFileVersion
  | ErrorBadFileLength
  | ErrorXMLParserInit
  | ErrorDuplicateNamespacePrefix
  | ErrorDuplicateNamespaceURI
  | ErrorBadPrototype
  | ErrorBadCodecs
  | ErrorValueOutOfBounds
  | ErrorConversionRequired
  | ErrorBadPathName
  | ErrorNotImplemented
  | ErrorBadNodeDowncast
  | ErrorWriterNotOpen
  | ErrorReaderNotOpen
  | ErrorNodeUnattached
  | ErrorAlreadyHasParent
  | ErrorDifferentDestImageFile
  | ErrorImageFileNotOpen
  | ErrorBuffersNotCompatible
  | ErrorTooManyWriters
  | ErrorTooManyReaders
  | ErrorBadConfiguration
  | ErrorInvarianceViolation
  deriving DecidableEq, Repr

/-- The numeric value the header assigns to each enumerator. -/
def ErrorCode.value : ErrorCode → Nat
  | .Success => 0
  | .ErrorBadCVHeader => 1
  | .ErrorBadCVPacket => 2
  | .ErrorChildIndexOutOfBounds => 3
  | .ErrorSetTwice => 4
  | .ErrorHomogeneousViolation => 5
  | .ErrorValueNotRepresentable => 6
  | .ErrorScaledValueNotRepresentable => 7
  | .ErrorReal64TooLarge => 8
  | .ErrorExpectingNumeric => 9
  | .ErrorExpectingUString => 10
  | .ErrorInternal => 11
  | .ErrorBadXMLFormat => 12
  | .ErrorXMLParser => 13
  | .ErrorBadAPIArgument => 14
  | .ErrorFileReadOnly => 15
  | .ErrorBadChecksum => 16
  | .ErrorOpenFailed => 17
  | .ErrorCloseFailed => 18
  | .ErrorReadFailed => 19
  | .ErrorWriteFailed => 20
  | .ErrorSeekFailed => 21
  | .ErrorPathUndefined => 22
  | .ErrorBadBuffer => 23
  | .ErrorNoBufferForElement => 24
  | .ErrorBufferSizeMismatch => 25
  | .ErrorBufferDuplicatePathName => 26
  | .ErrorBadFileSignature => 27
  | .ErrorUnknownFileVersion => 28
  | .ErrorBadFileLength => 29
  | .ErrorXMLParserInit => 30
  | .ErrorDuplicateNamespacePrefix => 31
  | .ErrorDuplicateNamespaceURI => 32
  | .ErrorBadPrototype => 33
  | .ErrorBadCodecs => 34
  | .ErrorValueOutOfBounds => 35
  | .ErrorConversionRequired => 36
  | .ErrorBadPathName => 37
  | .ErrorNotImplemented => 38
  | .ErrorBadNodeDowncast => 39
  | .ErrorWriterNotOpen => 40
  | .ErrorReaderNotOpen => 41
  | .ErrorNodeUnattached => 42
  | .ErrorAlreadyHasParent => 43
  | .ErrorDifferentDestImageFile => 44
  | .ErrorImageFileNotOpen => 45
  | .ErrorBuffersNotCompatible => 46
  | .ErrorTooManyWriters => 47
  | .ErrorTooManyReaders => 48
  | .ErrorBadConfiguration => 49
  | .ErrorInvarianceViolation => 50

/-- The deprecated enumerators of `enum ErrorCode`, in the order of the header. -/
inductive DeprecatedErrorCode where
  | E57_SUCCESS
  | E57_ERROR_BAD_CV_HEADER
  | E57_ERROR_BAD_CV_PACKET
  | E57_ERROR_CHILD_INDEX_OUT_OF_BOUNDS
  | E57_ERROR_SET_TWICE
  | E57_ERROR_HOMOGENEOUS_VIOLATION
  | E57_ERROR_VALUE_NOT_REPRESENTABLE
  | E57_ERROR_SCALED_VALUE_NOT_REPRESENTABLE
  | E57_ERROR_REAL64_TOO_LARGE
  | E57_ERROR_EXPECTING_NUMERIC
  | E57_ERROR_EXPECTING_USTRING
  | E57_ERROR_INTERNAL
  | E57_ERROR_BAD_XML_FORMAT
  | E57_ERROR_XML_PARSER
  | E57_ERROR_BAD_API_ARGUMENT
  | E57_ERROR_FILE_IS_READ_ONLY
  | E57_ERROR_BAD_CHECKSUM
  | E57_ERROR_OPEN_FAILED
  | E57_ERROR_CLOSE_FAILED
  | E57_ERROR_READ_FAILED
  | E57_ERROR_WRITE_FAILED
  | E57_ERROR_LSEEK_FAILED
  | E57_ERROR_PATH_UNDEFINED
  | E57_ERROR_BAD_BUFFER
  | E57_ERROR_NO_BUFFER_FOR_ELEMENT
  | E57_ERROR_BUFFER_SIZE_MISMATCH
  | E57_ERROR_BUFFER_DUPLICATE_PATHNAME
  | E57_ERROR_BAD_FILE_SIGNATURE
  | E57_ERROR_UNKNOWN_FILE_VERSION
  | E57_ERROR_BAD_FILE_LENGTH
  | E57_ERROR_XML_PARSER_INIT
  | E57_ERROR_DUPLICATE_NAMESPACE_PREFIX
  | E57_ERROR_DUPLICATE_NAMESPACE_URI
  | E57_ERROR_BAD_PROTOTYPE
  | E57_ERROR_BAD_CODECS
  | E57_ERROR_VALUE_OUT_OF_BOUNDS
  | E57_ERROR_CONVERSION_REQUIRED
  | E57_ERROR_BAD_PATH_NAME
  | E57_ERROR_NOT_IMPLEMENTED
  | E57_ERROR_BAD_NODE_DOWNCAST
  | E57_ERROR_WRITER_NOT_OPEN
  | E57_ERROR_READER_NOT_OPEN
  | E57_ERROR_NODE_UNATTACHED
  | E57_ERROR_ALREADY_HAS_PARENT
  | E57_ERROR_DIFFERENT_DEST_IMAGEFILE
  | E57_ERROR_IMAGEFILE_NOT_OPEN
  | E57_ERROR_BUFFERS_NOT_COMPATIBLE
  | E57_ERROR_TOO_MANY_WRITERS
  | E57_ERROR_TOO_MANY_READERS
  | E57_ERROR_BAD_CONFIGURATION
  | E57_ERROR_INVARIANCE_VIOLATION
  deriving DecidableEq, Repr

/-- The enumerator each deprecated enumerator is initialised with (`E57_X = ErrorX`). -/
def DeprecatedErrorCode.initializer : DeprecatedErrorCode → ErrorCode
  | .E57_SUCCESS => .Success
  | .E57_ERROR_BAD_CV_HEADER => .ErrorBadCVHeader
  | .E57_ERROR_BAD_CV_PACKET => .ErrorBadCVPacket
  | .E57_ERROR_CHILD_INDEX_OUT_OF_BOUNDS => .ErrorChildIndexOutOfBounds
  | .E57_ERROR_SET_TWICE => .ErrorSetTwice
  | .E57_ERROR_HOMOGENEOUS_VIOLATION => .ErrorHomogeneousViolation
  | .E57_ERROR_VALUE_NOT_REPRESENTABLE => .ErrorValueNotRepresentable
  | .E57_ERROR_SCALED_VALUE_NOT_REPRESENTABLE => .ErrorScaledValueNotRepresentable
  | .E57_ERROR_REAL64_TOO_LARGE => .ErrorReal64TooLarge
  | .E57_ERROR_EXPECTING_NUMERIC => .ErrorExpectingNumeric
  | .E57_ERROR_EXPECTING_USTRING => .ErrorExpectingUString
  | .E57_ERROR_INTERNAL => .ErrorInternal
  | .E57_ERROR_BAD_XML_FORMAT => .ErrorBadXMLFormat
  | .E57_ERROR_XML_PARSER => .ErrorXMLParser
  | .E57_ERROR_BAD_API_ARGUMENT => .ErrorBadAPIArgument
  | .E57_ERROR_FILE_IS_READ_ONLY => .ErrorFileReadOnly
  | .E57_ERROR_BAD_CHECKSUM => .ErrorBadChecksum
  | .E57_ERROR_OPEN_FAILED => .ErrorOpenFailed
  | .E57_ERROR_CLOSE_FAILED => .ErrorCloseFailed
  | .E57_ERROR_READ_FAILED => .ErrorReadFailed
  | .E57_ERROR_WRITE_FAILED => .ErrorWriteFailed
  | .E57_ERROR_LSEEK_FAILED => .ErrorSeekFailed
  | .E57_ERROR_PATH_UNDEFINED => .ErrorPathUndefined
  | .E57_ERROR_BAD_BUFFER => .ErrorBadBuffer
  | .E57_ERROR_NO_BUFFER_FOR_ELEMENT => .ErrorNoBufferForElement
  | .E57_ERROR_BUFFER_SIZE_MISMATCH => .ErrorBufferSizeMismatch
  | .E57_ERROR_BUFFER_DUPLICATE_PATHNAME => .ErrorBufferDuplicatePathName
  | .E57_ERROR_BAD_FILE_SIGNATURE => .ErrorBadFileSignature
  | .E57_ERROR_UNKNOWN_FILE_VERSION => .ErrorUnknownFileVersion
  | .E57_ERROR_BAD_FILE_LENGTH => .ErrorBadFileLength
  | .E57_ERROR_XML_PARSER_INIT => .ErrorXMLParserInit
  | .E57_ERROR_DUPLICATE_NAMESPACE_PREFIX => .ErrorDuplicateNamespacePrefix
  | .E57_ERROR_DUPLICATE_NAMESPACE_URI => .ErrorDuplicateNamespaceURI
  | .E57_ERROR_BAD_PROTOTYPE => .ErrorBadPrototype
  | .E57_ERROR_BAD_CODECS => .ErrorBadCodecs
  | .E57_ERROR_VALUE_OUT_OF_BOUNDS => .ErrorValueOutOfBounds
  | .E57_ERROR_CONVERSION_REQUIRED => .ErrorConversionRequired
  | .E57_ERROR_BAD_PATH_NAME => .ErrorBadPathName
  | .E57_ERROR_NOT_IMPLEMENTED => .ErrorNotImplemented
  | .E57_ERROR_BAD_NODE_DOWNCAST => .ErrorBadNodeDowncast
  | .E57_ERROR_WRITER_NOT_OPEN => .ErrorWriterNotOpen
  | .E57_ERROR_READER_NOT_OPEN => .ErrorReaderNotOpen
  | .E57_ERROR_NODE_UNATTACHED => .ErrorNodeUnattached
  | .E57_ERROR_ALREADY_HAS_PARENT => .ErrorAlreadyHasParent
  | .E57_ERROR_DIFFERENT_DEST_IMAGEFILE => .ErrorDifferentDestImageFile
  | .E57_ERROR_IMAGEFILE_NOT_OPEN => .ErrorImageFileNotOpen
  | .E57_ERROR_BUFFERS_NOT_COMPATIBLE => .ErrorBuffersNotCompatible
  | .E57_ERROR_TOO_MANY_WRITERS => .ErrorTooManyWriters
  | .E57_ERROR_TOO_MANY_READERS => .ErrorTooManyReaders
  | .E57_ERROR_BAD_CONFIGURATION => .ErrorBadConfiguration
  | .E57_ERROR_INVARIANCE_VIOLATION => .ErrorInvarianceViolation

/-- The replacement named in the `@deprecated` note of each deprecated enumerator
(`Use e57::ErrorX`). -/
def DeprecatedErrorCode.replacement : DeprecatedErrorCode → ErrorCode
  | .E57_SUCCESS => .Success
  | .E57_ERROR_BAD_CV_HEADER => .ErrorBadCVHeader
  | .E57_ERROR_BAD_CV_PACKET => .ErrorBadCVPacket
  | .E57_ERROR_CHILD_INDEX_OUT_OF_BOUNDS => .ErrorChildIndexOutOfBounds
  | .E57_ERROR_SET_TWICE => .ErrorSetTwice
  | .E57_ERROR_HOMOGENEOUS_VIOLATION => .ErrorHomogeneousViolation
  | .E57_ERROR_VALUE_NOT_REPRESENTABLE => .ErrorValueNotRepresentable
  | .E57_ERROR_SCALED_VALUE_NOT_REPRESENTABLE => .ErrorScaledValueNotRepresentable
  | .E57_ERROR_REAL64_TOO_LARGE => .ErrorReal64TooLarge
  | .E57_ERROR_EXPECTING_NUMERIC => .ErrorExpectingNumeric
  | .E57_ERROR_EXPECTING_USTRING => .ErrorExpectingUString
  | .E57_ERROR_INTERNAL => .ErrorInternal
  | .E57_ERROR_BAD_XML_FORMAT => .ErrorBadXMLFormat
  | .E57_ERROR_XML_PARSER => .ErrorXMLParser
  | .E57_ERROR_BAD_API_ARGUMENT => .ErrorBadAPIArgument
  | .E57_ERROR_FILE_IS_READ_ONLY => .ErrorFileReadOnly
  | .E57_ERROR_BAD_CHECKSUM => .ErrorBadChecksum
  | .E57_ERROR_OPEN_FAILED => .ErrorOpenFailed
  | .E57_ERROR_CLOSE_FAILED => .ErrorCloseFailed
  | .E57_ERROR_READ_FAILED => .ErrorReadFailed
  | .E57_ERROR_WRITE_FAILED => .ErrorWriteFailed
  | .E57_ERROR_LSEEK_FAILED => .ErrorSeekFailed
  | .E57_ERROR_PATH_UNDEFINED => .ErrorPathUndefined
  | .E57_ERROR_BAD_BUFFER => .ErrorBadBuffer
  | .E57_ERROR_NO_BUFFER_FOR_ELEMENT => .ErrorNoBufferForElement
  | .E57_ERROR_BUFFER_SIZE_MISMATCH => .ErrorBufferSizeMismatch
  | .E57_ERROR_BUFFER_DUPLICATE_PATHNAME => .ErrorBufferDuplicatePathName
  | .E57_ERROR_BAD_FILE_SIGNATURE => .ErrorBadFileSignature
  | .E57_ERROR_UNKNOWN_FILE_VERSION => .ErrorUnknownFileVersion
  | .E57_ERROR_BAD_FILE_LENGTH => .ErrorBadFileLength
  | .E57_ERROR_XML_PARSER_INIT => .ErrorXMLParserInit
  | .E57_ERROR_DUPLICATE_NAMESPACE_PREFIX => .ErrorDuplicateNamespacePrefix
  | .E57_ERROR_DUPLICATE_NAMESPACE_URI => .ErrorDuplicateNamespaceURI
  | .E57_ERROR_BAD_PROTOTYPE => .ErrorBadPrototype
  | .E57_ERROR_BAD_CODECS => .ErrorBadCodecs
  | .E57_ERROR_VALUE_OUT_OF_BOUNDS => .ErrorValueOutOfBounds
  | .E57_ERROR_CONVERSION_REQUIRED => .ErrorConversionRequired
  | .E57_ERROR_BAD_PATH_NAME => .ErrorBadPathName
  | .E57_ERROR_NOT_IMPLEMENTED => .ErrorNotImplemented
  | .E57_ERROR_BAD_NODE_DOWNCAST => .ErrorBadNodeDowncast
  | .E57_ERROR_WRITER_NOT_OPEN => .ErrorWriterNotOpen
  | .E57_ERROR_READER_NOT_OPEN => .ErrorReaderNotOpen
  | .E57_ERROR_NODE_UNATTACHED => .ErrorNodeUnattached
  | .E57_ERROR_ALREADY_HAS_PARENT => .ErrorAlreadyHasParent
  | .E57_ERROR_DIFFERENT_DEST_IMAGEFILE => .ErrorDifferentDestImageFile
  | .E57_ERROR_IMAGEFILE_NOT_OPEN => .ErrorImageFileNotOpen
  | .E57_ERROR_BUFFERS_NOT_COMPATIBLE => .ErrorBuffersNotCompatible
  | .E57_ERROR_TOO_MANY_WRITERS => .ErrorTooManyWriters
  | .E57_ERROR_TOO_MANY_READERS => .ErrorTooManyReaders
  | .E57_ERROR_BAD_CONFIGURATION => .ErrorBadConfiguration
  | .E57_ERROR_INVARIANCE_VIOLATION => .ErrorInvarianceViolation

/-- The numeric value of a deprecated enumerator: that of its initialiser. -/
def DeprecatedErrorCode.value (d : DeprecatedErrorCode) : Nat :=
  d.initializer.value

/-- Every non-deprecated enumerator, in the order of the header. -/
def ErrorCode.all : List ErrorCode :=
  [.Success,
   .ErrorBadCVHeader,
   .ErrorBadCVPacket,
   .ErrorChildIndexOutOfBounds,
   .ErrorSetTwice,
   .ErrorHomogeneousViolation,
   .ErrorValueNotRepresentable,
   .ErrorScaledValueNotRepresentable,
   .ErrorReal64TooLarge,
   .ErrorExpectingNumeric,
   .ErrorExpectingUString,
   .ErrorInternal,
   .ErrorBadXMLFormat,
   .ErrorXMLParser,
   .ErrorBadAPIArgument,
   .ErrorFileReadOnly,
   .ErrorBadChecksum,
   .ErrorOpenFailed,
   .ErrorCloseFailed,
   .ErrorReadFailed,
   .ErrorWriteFailed,
   .ErrorSeekFailed,
   .ErrorPathUndefined,
   .ErrorBadBuffer,
   .ErrorNoBufferForElement,
   .ErrorBufferSizeMismatch,
   .ErrorBufferDuplicatePathName,
   .ErrorBadFileSignature,
   .ErrorUnknownFileVersion,
   .ErrorBadFileLength,
   .ErrorXMLParserInit,
   .ErrorDuplicateNamespacePrefix,
   .ErrorDuplicateNamespaceURI,
   .ErrorBadPrototype,
   .ErrorBadCodecs,
   .ErrorValueOutOfBounds,
   .ErrorConversionRequired,
   .ErrorBadPathName,
   .ErrorNotImplemented,
   .ErrorBadNodeDowncast,
   .ErrorWriterNotOpen,
   .ErrorReaderNotOpen,
   .ErrorNodeUnattached,
   .ErrorAlreadyHasParent,
   .ErrorDifferentDestImageFile,
   .ErrorImageFileNotOpen,
   .ErrorBuffersNotCompatible,
   .ErrorTooManyWriters,
   .ErrorTooManyReaders,
   .ErrorBadConfiguration,
   .ErrorInvarianceViolation]

/-- Every deprecated enumerator, in the order of the header. -/
def DeprecatedErrorCode.all : List DeprecatedErrorCode :=
  [.E57_SUCCESS,
   .E57_ERROR_BAD_CV_HEADER,
   .E57_ERROR_BAD_CV_PACKET,
   .E57_ERROR_CHILD_INDEX_OUT_OF_BOUNDS,
   .E57_ERROR_SET_TWICE,
   .E57_ERROR_HOMOGENEOUS_VIOLATION,
   .E57_ERROR_VALUE_NOT_REPRESENTABLE,
   .E57_ERROR_SCALED_VALUE_NOT_REPRESENTABLE,
   .E57_ERROR_REAL64_TOO_LARGE,
   .E57_ERROR_EXPECTING_NUMERIC,
   .E57_ERROR_EXPECTING_USTRING,
   .E57_ERROR_INTERNAL,
   .E57_ERROR_BAD_XML_FORMAT,
   .E57_ERROR_XML_PARSER,
   .E57_ERROR_BAD_API_ARGUMENT,
   .E57_ERROR_FILE_IS_READ_ONLY,
   .E57_ERROR_BAD_CHECKSUM,
   .E57_ERROR_OPEN_FAILED,
   .E57_ERROR_CLOSE_FAILED,
   .E57_ERROR_READ_FAILED,
   .E57_ERROR_WRITE_FAILED,
   .E57_ERROR_LSEEK_FAILED,
   .E57_ERROR_PATH_UNDEFINED,
   .E57_ERROR_BAD_BUFFER,
   .E57_ERROR_NO_BUFFER_FOR_ELEMENT,
   .E57_ERROR_BUFFER_SIZE_MISMATCH,
   .E57_ERROR_BUFFER_DUPLICATE_PATHNAME,
   .E57_ERROR_BAD_FILE_SIGNATURE,
   .E57_ERROR_UNKNOWN_FILE_VERSION,
   .E57_ERROR_BAD_FILE_LENGTH,
   .E57_ERROR_XML_PARSER_INIT,
   .E57_ERROR_DUPLICATE_NAMESPACE_PREFIX,
   .E57_ERROR_DUPLICATE_NAMESPACE_URI,
   .E57_ERROR_BAD_PROTOTYPE,
   .E57_ERROR_BAD_CODECS,
   .E57_ERROR_VALUE_OUT_OF_BOUNDS,
   .E57_ERROR_CONVERSION_REQUIRED,
   .E57_ERROR_BAD_PATH_NAME,
   .E57_ERROR_NOT_IMPLEMENTED,
   .E57_ERROR_BAD_NODE_DOWNCAST,
   .E57_ERROR_WRITER_NOT_OPEN,
   .E57_ERROR_READER_NOT_OPEN,
   .E57_ERROR_NODE_UNATTACHED,
   .E57_ERROR_ALREADY_HAS_PARENT,
   .E57_ERROR_DIFFERENT_DEST_IMAGEFILE,
   .E57_ERROR_IMAGEFILE_NOT_OPEN,
   .E57_ERROR_BUFFERS_NOT_COMPATIBLE,
   .E57_ERROR_TOO_MANY_WRITERS,
   .E57_ERROR_TOO_MANY_READERS,
   .E57_ERROR_BAD_CONFIGURATION,
   .E57_ERROR_INVARIANCE_VIOLATION]

/-! ## External collaborators

`ImageFileImpl`, `NodeImpl` and `SourceDestBuffer` are declared in headers that are not among
the sources; `CompressedVectorNodeImpl.cpp` uses them through a handful of accessors. -/

/-- Modelled from the spec: the container object (`ImageFileImpl.h` is not among the sources).
The spec lists what the compressed vector consumes from it: `writerCount()`, `readerCount()`,
`isWriter()`, `fileName()` and the open state. The two counters are C++ `int`s. -/
structure ImageFileImpl where
  fileName : String
  isOpen : Bool
  isWriter : Bool
  writerCount : Int
  readerCount : Int
  deriving DecidableEq, Repr

/-- Modelled from the spec: the node kinds of the typed tree (the `NodeType` enumeration is
declared outside the sources; the spec lists the eight variants). -/
inductive NodeType where
  | TypeStructure
  | TypeVector
  | TypeCompressedVector
  | TypeInteger
  | TypeScaledInteger
  | TypeFloat
  | TypeString
  | TypeBlob
  deriving DecidableEq, Repr

/-- Modelled from the spec: a node of the typed tree as the compressed vector sees it
(`NodeImpl.h` is not among the sources). Each node carries its kind, an element name, the
attached flag, the identity of its destination container and a weak reference to its parent
(`none` for a root node); container kinds carry their children. -/
inductive NodeImpl where
  | mk (type : NodeType) (elementName : String) (isAttached : Bool) (destImageFile : Nat)
      (parent : Option Nat) (children : List NodeImpl)

/-- The kind tag, `NodeImpl::type()`. -/
def NodeImpl.type : NodeImpl → NodeType
  | .mk t _ _ _ _ _ => t

/-- The element name, `elementName_`. -/
def NodeImpl.elementName : NodeImpl → String
  | .mk _ n _ _ _ _ => n

/-- The attached flag, `NodeImpl::isAttached()`. -/
def NodeImpl.isAttached : NodeImpl → Bool
  | .mk _ _ a _ _ _ => a

/-- The identity of the destination container, `NodeImpl::destImageFile()`. -/
def NodeImpl.destImageFile : NodeImpl → Nat
  | .mk _ _ _ d _ _ => d

/-- The weak parent reference, `parent_`. -/
def NodeImpl.parent : NodeImpl → Option Nat
  | .mk _ _ _ _ p _ => p

/-- The children of a container node. -/
def NodeImpl.children : NodeImpl → List NodeImpl
  | .mk _ _ _ _ _ cs => cs

/-- Modelled from the spec: `NodeImpl::isRoot()`, a node is root when it has no parent. -/
def NodeImpl.isRoot (n : NodeImpl) : Bool :=
  n.parent.isNone

/-- Modelled from the spec: the memory element types of a user buffer. -/
inductive MemoryRepresentation where
  | i8 | u8 | i16 | u16 | i32 | u32 | i64 | f32 | f64 | string
  deriving DecidableEq, Repr

/-- Modelled from the spec: a user-supplied typed array bound to a prototype field by path
(`SourceDestBuffer` is declared outside the sources). -/
structure SourceDestBuffer where
  pathName : String
  capacity : Nat
  stride : Nat
  elementType : MemoryRepresentation
  doConversion : Bool
  doScaling : Bool
  deriving DecidableEq, Repr

/-- Modelled from the spec: `NodeImpl::checkImageFileOpen`, which the source calls at the top
of `getPrototype`, `getCodecs`, `childCount`, `writer` and `reader`; it throws
`ErrorImageFileNotOpen` when the destination container is no longer open. -/
def checkImageFileOpen (destImageFile : ImageFileImpl) : Except ErrorCode Unit :=
  if !destImageFile.isOpen then .error .ErrorImageFileNotOpen else .ok ()

/-! ## `CompressedVectorNodeImpl` -/

/-- The object state: the `NodeImpl` base (element name, attached flag, destination container,
parent) and the four members of the derived class. `codecs_` is a pointer to a
`VectorNodeImpl`, a subclass of `NodeImpl`. -/
structure CompressedVectorNodeImpl where
  elementName_ : String
  isAttached_ : Bool
  destImageFile_ : Nat
  parent_ : Option Nat
  prototype_ : Option NodeImpl
  codecs_ : Option NodeImpl
  recordCount_ : Int
  binarySectionLogicalStart_ : Nat

namespace CompressedVectorNodeImpl

/-- The constructor `CompressedVectorNodeImpl( destImageFile )`: it delegates to the `NodeImpl`
constructor, which checks that the container is open ("don't checkImageFileOpen, NodeImpl()
will do it"); the node starts unattached, parentless, with null prototype and codecs. The
initial values of `recordCount_` and `binarySectionLogicalStart_` are set in the class
declaration, which is not among the sources; zero is taken for both.
`destId` is the identity of the container object `destImageFile`. -/
def new (destId : Nat) (destImageFile : ImageFileImpl) :
    Except ErrorCode CompressedVectorNodeImpl :=
  match checkImageFileOpen destImageFile with
  | .error e => .error e
  | .ok () =>
    .ok { elementName_ := "", isAttached_ := false, destImageFile_ := destId, parent_ := none,
          prototype_ := none, codecs_ := none, recordCount_ := 0,
          binarySectionLogicalStart_ := 0 }

/-- `CompressedVectorNodeImpl::setPrototype` (lines 43-78). -/
def setPrototype (self : CompressedVectorNodeImpl) (prototype : NodeImpl) :
    Except ErrorCode CompressedVectorNodeImpl :=
  -- Can't set prototype twice.
  if self.prototype_.isSome then
    .error .ErrorSetTwice
  -- prototype can't have a parent (must be a root node)
  else if !prototype.isRoot then
    .error .ErrorAlreadyHasParent
  -- Verify that prototype is destined for same ImageFile as this is
  else if self.destImageFile_ != prototype.destImageFile then
    .error .ErrorDifferentDestImageFile
  else
    .ok { self with prototype_ := some prototype }

/-- `CompressedVectorNodeImpl::getPrototype` (lines 80-84). -/
def getPrototype (self : CompressedVectorNodeImpl) (destImageFile : ImageFileImpl) :
    Except ErrorCode (Option NodeImpl) :=
  match checkImageFileOpen destImageFile with
  | .error e => .error e
  | .ok () => .ok self.prototype_

/-- `CompressedVectorNodeImpl::setCodecs` (lines 86-120). -/
def setCodecs (self : CompressedVectorNodeImpl) (codecs : NodeImpl) :
    Except ErrorCode CompressedVectorNodeImpl :=
  -- Can't set codecs twice.
  if self.codecs_.isSome then
    .error .ErrorSetTwice
  -- codecs can't have a parent (must be a root node)
  else if !codecs.isRoot then
    .error .ErrorAlreadyHasParent
  -- Verify that codecs is destined for same ImageFile as this is
  else if self.destImageFile_ != codecs.destImageFile then
    .error .ErrorDifferentDestImageFile
  else
    .ok { self with codecs_ := some codecs }

/-- `CompressedVectorNodeImpl::getCodecs` (lines 122-126). -/
def getCodecs (self : CompressedVectorNodeImpl) (destImageFile : ImageFileImpl) :
    Except ErrorCode (Option NodeImpl) :=
  match checkImageFileOpen destImageFile with
  | .error e => .error e
  | .ok () => .ok self.codecs_

/-- `NodeImpl::isAttached()` on the vector itself. -/
def isAttached (self : CompressedVectorNodeImpl) : Bool :=
  self.isAttached_

/-! ### Streaming sessions

`CompressedVectorWriterImpl.cpp` and `CompressedVectorReaderImpl.cpp` are not among the sources:
`writer()` and `reader()` end by constructing a session object. -/

end CompressedVectorNodeImpl

/-- Modelled from the spec: a streaming write session (the class is declared outside the
sources): the vector it writes, the bound buffers and whether it is still open. -/
structure CompressedVectorWriterImpl where
  cVector_ : CompressedVectorNodeImpl
  sbufs_ : List SourceDestBuffer
  isOpen_ : Bool

/-- Modelled from the spec: a streaming read session (the class is declared outside the
sources): the vector it reads, the bound buffers and whether it is still open. -/
structure CompressedVectorReaderImpl where
  cVector_ : CompressedVectorNodeImpl
  dbufs_ : List SourceDestBuffer
  isOpen_ : Bool

/-- Modelled from the spec: the constructor of the write session. Its own checks on the buffers
(every prototype leaf bound once, no duplicate path, equal capacities) are the parameter
`checkBuffers`; when they pass, the open session takes the writer slot of the container, that
is, the writer counter goes up by one. -/
def CompressedVectorWriterImpl.new
    (checkBuffers : CompressedVectorNodeImpl → List SourceDestBuffer → Except ErrorCode Unit)
    (ni : CompressedVectorNodeImpl) (destImageFile : ImageFileImpl)
    (sbufs : List SourceDestBuffer) :
    Except ErrorCode (CompressedVectorWriterImpl × ImageFileImpl) :=
  match checkBuffers ni sbufs with
  | .error e => .error e
  | .ok () =>
    .ok ({ cVector_ := ni, sbufs_ := sbufs, isOpen_ := true },
         { destImageFile with writerCount := destImageFile.writerCount + 1 })

/-- Modelled from the spec: the constructor of the read session. Its own checks on the buffers
are the parameter `checkBuffers`; when they pass, the open session takes the reader slot of
the container, that is, the reader counter goes up by one. -/
def CompressedVectorReaderImpl.new
    (checkBuffers : CompressedVectorNodeImpl → List SourceDestBuffer → Except ErrorCode Unit)
    (ni : CompressedVectorNodeImpl) (destImageFile : ImageFileImpl)
    (dbufs : List SourceDestBuffer) :
    Except ErrorCode (CompressedVectorReaderImpl × ImageFileImpl) :=
  match checkBuffers ni dbufs with
  | .error e => .error e
  | .ok () =>
    .ok ({ cVector_ := ni, dbufs_ := dbufs, isOpen_ := true },
         { destImageFile with readerCount := destImageFile.readerCount + 1 })

/-- Modelled from the spec: closing a write session releases its slot on the container; closing
a session that is already closed fails `WriterNotOpen` and changes nothing. -/
def CompressedVectorWriterImpl.close (w : CompressedVectorWriterImpl)
    (destImageFile : ImageFileImpl) :
    Except ErrorCode (CompressedVectorWriterImpl × ImageFileImpl) :=
  if !w.isOpen_ then
    .error .ErrorWriterNotOpen
  else
    .ok ({ w with isOpen_ := false },
         { destImageFile with writerCount := destImageFile.writerCount - 1 })

/-- Modelled from the spec: closing a read session releases its slot on the container; closing
a session that is already closed changes nothing. -/
def CompressedVectorReaderImpl.close (r : CompressedVectorReaderImpl)
    (destImageFile : ImageFileImpl) : CompressedVectorReaderImpl × ImageFileImpl :=
  if !r.isOpen_ then
    (r, destImageFile)
  else
    ({ r with isOpen_ := false },
     { destImageFile with readerCount := destImageFile.readerCount - 1 })

namespace CompressedVectorNodeImpl

/-- `CompressedVectorNodeImpl::writer` (lines 260-305). `destImageFile` is the container object
that the weak pointer `destImageFile_` refers to; the result carries the container as the
session constructor leaves it. -/
def writer
    (checkBuffers : CompressedVectorNodeImpl → List SourceDestBuffer → Except ErrorCode Unit)
    (self : CompressedVectorNodeImpl) (destImageFile : ImageFileImpl)
    (sbufs : List SourceDestBuffer) :
    Except ErrorCode (CompressedVectorWriterImpl × ImageFileImpl) :=
  match checkImageFileOpen destImageFile with
  | .error e => .error e
  | .ok () =>
    -- Check don't have any writers/readers open for this ImageFile
    if destImageFile.writerCount > 0 then
      .error .ErrorTooManyWriters
    else if destImageFile.readerCount > 0 then
      .error .ErrorTooManyReaders
    -- sbufs can't be empty
    else if sbufs.isEmpty then
      .error .ErrorBadAPIArgument
    else if !destImageFile.isWriter then
      .error .ErrorFileReadOnly
    else if !self.isAttached then
      .error .ErrorNodeUnattached
    else
      CompressedVectorWriterImpl.new checkBuffers self destImageFile sbufs

/-- `CompressedVectorNodeImpl::reader` (lines 307-355). `destImageFile` is the container object
that the weak pointer `destImageFile_` refers to; the result carries the container as the
session constructor leaves it. -/
def reader
    (checkBuffers : CompressedVectorNodeImpl → List SourceDestBuffer → Except ErrorCode Unit)
    (self : CompressedVectorNodeImpl) (destImageFile : ImageFileImpl)
    (dbufs : List SourceDestBuffer) :
    Except ErrorCode (CompressedVectorReaderImpl × ImageFileImpl) :=
  match checkImageFileOpen destImageFile with
  | .error e => .error e
  | .ok () =>
    -- Check don't have any writers/readers open for this ImageFile
    if destImageFile.writerCount > 0 then
      .error .ErrorTooManyWriters
    else if destImageFile.readerCount > 0 then
      .error .ErrorTooManyReaders
    -- dbufs can't be empty
    else if dbufs.isEmpty then
      .error .ErrorBadAPIArgument
    -- Can be read or write mode, but must be attached
    else if !self.isAttached then
      .error .ErrorNodeUnattached
    else
      CompressedVectorReaderImpl.new checkBuffers self destImageFile dbufs

end CompressedVectorNodeImpl

/-! ## Tree operations

The remaining member functions of `CompressedVectorNodeImpl.cpp`. Several of them call the
virtual function of the same name on the prototype and codecs nodes; the other node classes
are not among the sources. -/

mutual
/-- Modelled from the spec: `setAttachedRecursive()` of the other node classes (their sources
are not given): the node is marked attached and so is every node below it. -/
def NodeImpl.setAttachedRecursive : NodeImpl → NodeImpl
  | .mk t n _ d p cs => .mk t n true d p (NodeImpl.setAttachedChildren cs)
/-- The children of a node after `setAttachedRecursive()`. -/
def NodeImpl.setAttachedChildren : List NodeImpl → List NodeImpl
  | [] => []
  | c :: cs => NodeImpl.setAttachedRecursive c :: NodeImpl.setAttachedChildren cs
end

mutual
/-- Every node of the subtree rooted at a node, the root first. -/
def NodeImpl.subtree : NodeImpl → List NodeImpl
  | .mk t n a d p cs => .mk t n a d p cs :: NodeImpl.subtreeChildren cs
/-- Every node of the subtrees rooted at the nodes of a list. -/
def NodeImpl.subtreeChildren : List NodeImpl → List NodeImpl
  | [] => []
  | c :: cs => NodeImpl.subtree c ++ NodeImpl.subtreeChildren cs
end

/-- A node of any class handed over through a `NodeImplSharedPtr` that is not null: its
dynamic class is `CompressedVectorNodeImpl`, whose `type()` is `TypeCompressedVector`, or one
of the other node classes, whose `type()` is another tag. -/
inductive NodeImplSharedPtr where
  | compressedVector (cvi : CompressedVectorNodeImpl)
  | other (ni : NodeImpl) (h : ni.type ≠ NodeType.TypeCompressedVector)

/-- The virtual `type()` of the node pointed to. -/
def NodeImplSharedPtr.type : NodeImplSharedPtr → NodeType
  | .compressedVector _ => .TypeCompressedVector
  | .other ni _ => ni.type

/-- Modelled from the spec: the output file as `writeXml` uses it (`CheckedFile.h` is not among
the sources): the translation of logical to physical offsets and the text written so far. -/
structure CheckedFile where
  logicalToPhysical : Nat → Nat
  text : String

/-- Modelled from the spec: `cf << s` for a string appends the string to the file. -/
def CheckedFile.put (cf : CheckedFile) (s : String) : CheckedFile :=
  { cf with text := cf.text ++ s }

/-- Modelled from the spec: `cf << n` for an unsigned 64-bit number appends its decimal
digits. -/
def CheckedFile.putUInt64 (cf : CheckedFile) (n : Nat) : CheckedFile :=
  cf.put (toString n)

/-- Modelled from the spec: `cf << i` for a signed 64-bit number appends its decimal digits,
with a minus sign when negative. -/
def CheckedFile.putInt64 (cf : CheckedFile) (i : Int) : CheckedFile :=
  cf.put (toString i)

/-- Modelled from the spec: `space( n )` of `StringFunctions.h`, a string of `n` blanks. -/
def space (n : Nat) : String :=
  String.mk (List.replicate n ' ')

namespace CompressedVectorNodeImpl

/-- `CompressedVectorNodeImpl::isTypeEquivalent` (lines 128-159).

`nodeIsTypeEquivalent p q` is the virtual `p->isTypeEquivalent( q )` of the other node classes,
called on a receiver that is not null with an argument that may be null; its result is `none`
when that call has no defined result. The function here has no defined result either (`none`)
when it calls through `prototype_` or `codecs_` while that pointer is null. -/
def isTypeEquivalent (nodeIsTypeEquivalent : NodeImpl → Option NodeImpl → Option Bool)
    (self : CompressedVectorNodeImpl) (ni : NodeImplSharedPtr) : Option Bool :=
  match ni with
  -- Same node type?
  | .other _ _ => some false
  | .compressedVector cvi =>
    -- recordCount must match
    if self.recordCount_ != cvi.recordCount_ then
      some false
    else
      -- Prototypes and codecs must match
      match self.prototype_ with
      | none => none
      | some prototype =>
        match nodeIsTypeEquivalent prototype cvi.prototype_ with
        | none => none
        | some false => some false
        | some true =>
          match self.codecs_ with
          | none => none
          | some codecs =>
            match nodeIsTypeEquivalent codecs cvi.codecs_ with
            | none => none
            | some false => some false
            | some true => some true

/-- `CompressedVectorNodeImpl::isDefined` (lines 161-164). -/
def isDefined (_self : CompressedVectorNodeImpl) (_pathName : String) : Except ErrorCode Bool :=
  .error .ErrorNotImplemented

/-- `CompressedVectorNodeImpl::setAttachedRecursive` (lines 166-182). -/
def setAttachedRecursive (self : CompressedVectorNodeImpl) : CompressedVectorNodeImpl :=
  -- Mark this node as attached to an ImageFile
  let self := { self with isAttached_ := true }
  -- Mark nodes in prototype tree, if defined
  let self :=
    match self.prototype_ with
    | some prototype => { self with prototype_ := some prototype.setAttachedRecursive }
    | none => self
  -- Mark nodes in codecs tree if defined
  match self.codecs_ with
  | some codecs => { self with codecs_ := some codecs.setAttachedRecursive }
  | none => self

/-- `CompressedVectorNodeImpl::childCount` (lines 184-188). -/
def childCount (self : CompressedVectorNodeImpl) (destImageFile : ImageFileImpl) :
    Except ErrorCode Int :=
  match checkImageFileOpen destImageFile with
  | .error e => .error e
  | .ok () => .ok self.recordCount_

/-- `CompressedVectorNodeImpl::checkLeavesInSet` (lines 190-197); `StringSet` is a set of path
names, given here as a list. -/
def checkLeavesInSet (_self : CompressedVectorNodeImpl) (_pathNames : List String)
    (_origin : NodeImplSharedPtr) : Except ErrorCode Unit :=
  .error .ErrorInternal

/-- `CompressedVectorNodeImpl::writeXml` (lines 199-229).

`forcedFieldName` is a `const char *`, `none` for `nullptr`. `nodeWriteXml p imf cf indent name`
is the virtual `p->writeXml( imf, cf, indent, name )` of the other node classes and returns the
file as that call leaves it. The indentation is taken as a natural number, and write failures
of the file are not modelled. -/
def writeXml
    (nodeWriteXml : NodeImpl → ImageFileImpl → CheckedFile → Nat → Option String → CheckedFile)
    (self : CompressedVectorNodeImpl) (imf : ImageFileImpl) (cf : CheckedFile) (indent : Nat)
    (forcedFieldName : Option String) : CheckedFile :=
  let fieldName :=
    match forcedFieldName with
    | some forced => forced
    | none => self.elementName_
  let physicalStart := cf.logicalToPhysical self.binarySectionLogicalStart_
  let cf := (((cf.put (space indent)).put "<").put fieldName).put " type=\"CompressedVector\""
  let cf := (cf.put " fileOffset=\"").putUInt64 physicalStart
  let cf := ((cf.put "\" recordCount=\"").putInt64 self.recordCount_).put "\">\n"
  let cf :=
    match self.prototype_ with
    | some prototype => nodeWriteXml prototype imf cf (indent + 2) (some "prototype")
    | none => cf
  let cf :=
    match self.codecs_ with
    | some codecs => nodeWriteXml codecs imf cf (indent + 2) (some "codecs")
    | none => cf
  (((cf.put (space indent)).put "</").put fieldName).put ">\n"

end CompressedVectorNodeImpl

/-! ## Call sequences -/

/-- A call of one of the two one-shot setters. -/
inductive SetCall where
  | setPrototype (p : NodeImpl)
  | setCodecs (c : NodeImpl)

/-- The vector after a setter call: a call that throws leaves the object as it was. -/
def SetCall.apply (v : CompressedVectorNodeImpl) : SetCall → CompressedVectorNodeImpl
  | .setPrototype p =>
    match v.setPrototype p with
    | .ok v' => v'
    | .error _ => v
  | .setCodecs c =>
    match v.setCodecs c with
    | .ok v' => v'
    | .error _ => v

/-- The vector after a sequence of setter calls. -/
def SetCall.run (v : CompressedVectorNodeImpl) : List SetCall → CompressedVectorNodeImpl
  | [] => v
  | call :: rest => SetCall.run (SetCall.apply v call) rest

/-- The number of `setPrototype` calls of the sequence that return without throwing. -/
def SetCall.prototypeAssignments (v : CompressedVectorNodeImpl) : List SetCall → Nat
  | [] => 0
  | .setPrototype p :: rest =>
    (match v.setPrototype p with
      | .ok _ => 1
      | .error _ => 0) + SetCall.prototypeAssignments (SetCall.apply v (.setPrototype p)) rest
  | .setCodecs c :: rest => SetCall.prototypeAssignments (SetCall.apply v (.setCodecs c)) rest

/-- The number of `setCodecs` calls of the sequence that return without throwing. -/
def SetCall.codecsAssignments (v : CompressedVectorNodeImpl) : List SetCall → Nat
  | [] => 0
  | .setCodecs c :: rest =>
    (match v.setCodecs c with
      | .ok _ => 1
      | .error _ => 0) + SetCall.codecsAssignments (SetCall.apply v (.setCodecs c)) rest
  | .setPrototype p :: rest =>
    SetCall.codecsAssignments (SetCall.apply v (.setPrototype p)) rest

/-- A call of one of the three member functions that change the vector. -/
inductive NodeCall where
  | setPrototype (p : NodeImpl)
  | setCodecs (c : NodeImpl)
  | setAttachedRecursive

/-- The vector after a call: a setter that throws leaves the object as it was. -/
def NodeCall.apply (v : CompressedVectorNodeImpl) : NodeCall → CompressedVectorNodeImpl
  | .setPrototype p => SetCall.apply v (.setPrototype p)
  | .setCodecs c => SetCall.apply v (.setCodecs c)
  | .setAttachedRecursive => v.setAttachedRecursive

/-- The vector after a sequence of calls. -/
def NodeCall.run (v : CompressedVectorNodeImpl) : List NodeCall → CompressedVectorNodeImpl
  | [] => v
  | call :: rest => NodeCall.run (NodeCall.apply v call) rest

/-- A call of one of the member functions of the vector, on a vector together with its
container. -/
inductive VectorCall where
  | setPrototype (p : NodeImpl)
  | setCodecs (c : NodeImpl)
  | setAttachedRecursive
  | isTypeEquivalent (ni : NodeImplSharedPtr)
  | writer (sbufs : List SourceDestBuffer)
  | reader (dbufs : List SourceDestBuffer)

/-- The vector and its container after a call. A call that throws leaves both as they were;
`isTypeEquivalent` assigns no member, and there is no state after it (`none`) when it has no
defined result; `writer` and `reader` leave the vector alone and hand the container to the
session constructor. -/
def VectorCall.apply (nodeIsTypeEquivalent : NodeImpl → Option NodeImpl → Option Bool)
    (checkW checkR : CompressedVectorNodeImpl → List SourceDestBuffer → Except ErrorCode Unit)
    (s : CompressedVectorNodeImpl × ImageFileImpl) :
    VectorCall → Option (CompressedVectorNodeImpl × ImageFileImpl)
  | .setPrototype p => some (SetCall.apply s.1 (.setPrototype p), s.2)
  | .setCodecs c => some (SetCall.apply s.1 (.setCodecs c), s.2)
  | .setAttachedRecursive => some (s.1.setAttachedRecursive, s.2)
  | .isTypeEquivalent ni =>
    match s.1.isTypeEquivalent nodeIsTypeEquivalent ni with
    | some _ => some s
    | none => none
  | .writer sbufs =>
    match s.1.writer checkW s.2 sbufs with
    | .ok (_, imf1) => some (s.1, imf1)
    | .error _ => some s
  | .reader dbufs =>
    match s.1.reader checkR s.2 dbufs with
    | .ok (_, imf1) => some (s.1, imf1)
    | .error _ => some s

/-- The vector and its container after a sequence of calls, `none` when one of the calls has
no defined result. -/
def VectorCall.run (nodeIsTypeEquivalent : NodeImpl → Option NodeImpl → Option Bool)
    (checkW checkR : CompressedVectorNodeImpl → List SourceDestBuffer → Except ErrorCode Unit)
    (s : CompressedVectorNodeImpl × ImageFileImpl) :
    List VectorCall → Option (CompressedVectorNodeImpl × ImageFileImpl)
  | [] => some s
  | call :: rest =>
    match VectorCall.apply nodeIsTypeEquivalent checkW checkR s call with
    | some s1 => VectorCall.run nodeIsTypeEquivalent checkW checkR s1 rest
    | none => none

/-- The five checks of `writer` on an open container in the order in which they are reported:
whether the check is violated, and the error code it reports. -/
def writerChecks (writerCount readerCount : Int) (sbufsEmpty isWriter isAttached : Bool) :
    List (Bool × ErrorCode) :=
  [(decide (writerCount > 0), .ErrorTooManyWriters),
   (decide (readerCount > 0), .ErrorTooManyReaders),
   (sbufsEmpty, .ErrorBadAPIArgument),
   (!isWriter, .ErrorFileReadOnly),
   (!isAttached, .ErrorNodeUnattached)]

/-- The error code of the first violated check, `none` when no check is violated. -/
def writerFirstViolation (writerCount readerCount : Int)
    (sbufsEmpty isWriter isAttached : Bool) : Option ErrorCode :=
  ((writerChecks writerCount readerCount sbufsEmpty isWriter isAttached).find?
    (fun check => check.1)).map (fun check => check.2)

/-- One container together with every session object created on it so far. -/
structure ContainerState where
  imf : ImageFileImpl
  writers : List CompressedVectorWriterImpl
  readers : List CompressedVectorReaderImpl

/-- A session event on the container: opening a writer or a reader on some compressed vector
of the container, or closing the `i`-th writer or reader created so far. -/
inductive SessionCall where
  | openWriter (v : CompressedVectorNodeImpl) (sbufs : List SourceDestBuffer)
  | openReader (v : CompressedVectorNodeImpl) (dbufs : List SourceDestBuffer)
  | closeWriter (i : Nat)
  | closeReader (i : Nat)

/-- The container after a session event; an open that throws creates no session and leaves the
container as it was. -/
def ContainerState.step
    (checkW checkR : CompressedVectorNodeImpl → List SourceDestBuffer → Except ErrorCode Unit)
    (s : ContainerState) : SessionCall → ContainerState
  | .openWriter v sbufs =>
    match v.writer checkW s.imf sbufs with
    | .ok (w, imf') => { s with imf := imf', writers := w :: s.writers }
    | .error _ => s
  | .openReader v dbufs =>
    match v.reader checkR s.imf dbufs with
    | .ok (r, imf') => { s with imf := imf', readers := r :: s.readers }
    | .error _ => s
  | .closeWriter i =>
    match s.writers.get? i with
    | none => s
    | some w =>
      match w.close s.imf with
      | .ok (w', imf') => { s with imf := imf', writers := s.writers.set i w' }
      | .error _ => s
  | .closeReader i =>
    match s.readers.get? i with
    | none => s
    | some r =>
      { s with imf := (r.close s.imf).2, readers := s.readers.set i (r.close s.imf).1 }

/-- The container after a sequence of session events. -/
def ContainerState.run
    (checkW checkR : CompressedVectorNodeImpl → List SourceDestBuffer → Except ErrorCode Unit)
    (s : ContainerState) : List SessionCall → ContainerState
  | [] => s
  | call :: rest => ContainerState.run checkW checkR (ContainerState.step checkW checkR s call) rest

/-- The number of write sessions still open. -/
def ContainerState.openWriters (s : ContainerState) : Nat :=
  s.writers.countP (fun w => w.isOpen_)

/-- The number of read sessions still open. -/
def ContainerState.openReaders (s : ContainerState) : Nat :=
  s.readers.countP (fun r => r.isOpen_)

/-! ## The record pipeline

The write and read sessions, the codecs and the packets are not among the sources. The
definitions of this section follow the design of the spec: the per-field codecs, the
per-record pipeline of the writer, the bytestreams of a binary section and the decode loop of
the reader. A bytestream is given cell by cell: a bit-packed stream bit by bit (cells 0 and
1, eight to the byte), a string stream by a length prefix followed by the bytes of the
string. The file is taken to return what was written to it. -/

/-- Modelled from the spec: the precision of a `Float` leaf. -/
inductive FloatPrecision where
  | single
  | double
  deriving DecidableEq, Repr

/-- Modelled from the spec: the type of a prototype leaf: `Integer{min,max}`,
`ScaledInteger{min,max,scale,offset}` (scale and offset by their 64-bit patterns),
`Float{precision}` and `String`. -/
inductive FieldType where
  | integer (min max : Int)
  | scaledInteger (min max : Int) (scale offset : Nat)
  | float (precision : FloatPrecision)
  | ustring
  deriving DecidableEq, Repr

/-- Modelled from the spec: an element of a user buffer: an integer, a float by its IEEE-754
bit pattern, or a string by its UTF-8 bytes. -/
inductive FieldValue where
  | integer (value : Int)
  | float (precision : FloatPrecision) (bits : Nat)
  | ustring (utf8 : List Nat)
  deriving DecidableEq, Repr

/-- Modelled from the spec: the element types of a buffer. Whether a value is a well-formed element
of a buffer of the given element type: an integer in the range of the integer type, a bit
pattern of the width of the float type, a string. -/
def MemoryRepresentation.holds : MemoryRepresentation → FieldValue → Bool
  | .i8, .integer v => decide (-128 ≤ v ∧ v ≤ 127)
  | .u8, .integer v => decide (0 ≤ v ∧ v ≤ 255)
  | .i16, .integer v => decide (-32768 ≤ v ∧ v ≤ 32767)
  | .u16, .integer v => decide (0 ≤ v ∧ v ≤ 65535)
  | .i32, .integer v => decide (-2147483648 ≤ v ∧ v ≤ 2147483647)
  | .u32, .integer v => decide (0 ≤ v ∧ v ≤ 4294967295)
  | .i64, .integer v => decide (-9223372036854775808 ≤ v ∧ v ≤ 9223372036854775807)
  | .f32, .float .single bits => decide (bits < 2 ^ 32)
  | .f64, .float .double bits => decide (bits < 2 ^ 64)
  | .string, .ustring _ => true
  | _, _ => false

/-- Modelled from the spec: whether the element type of a buffer is that of the prototype
field, so that no conversion is needed: an integer type for `Integer` and for the raw values
of `ScaledInteger`, `f32` for a single float, `f64` for a double float, `string` for
`String`. -/
def MemoryRepresentation.matchesField : MemoryRepresentation → FieldType → Bool
  | .f32, .float .single => true
  | .f64, .float .double => true
  | .string, .ustring => true
  | .f32, _ => false
  | .f64, _ => false
  | .string, _ => false
  | _, .integer _ _ => true
  | _, .scaledInteger _ _ _ _ => true
  | _, _ => false

/-- Modelled from the spec: the search behind `ceil(log2(n))`: the least `k` from the given
one on with `n ≤ 2 ^ k`, searched with the given fuel. -/
def ceilLog2Loop (n : Nat) : Nat → Nat → Nat
  | 0, k => k
  | fuel + 1, k => if n ≤ 2 ^ k then k else ceilLog2Loop n fuel (k + 1)

/-- Modelled from the spec: `ceil(log2(n))`, the least `k` with `n ≤ 2 ^ k`. -/
def ceilLog2 (n : Nat) : Nat :=
  ceilLog2Loop n n 0

/-- Modelled from the spec: `bitsPerRecord = ceil(log2(max − min + 1))`, 0 when
`min == max`. -/
def bitsPerRecord (min max : Int) : Nat :=
  if min = max then 0 else ceilLog2 (max - min + 1).toNat

/-- Modelled from the spec: a little-endian bit-packed field: the `w` low bits of a number,
the least significant first. -/
def toBitsLE : Nat → Nat → List Nat
  | 0, _ => []
  | w + 1, n => n % 2 :: toBitsLE w (n / 2)

/-- Modelled from the spec: the reading of a little-endian field: the number whose bits, the
least significant first, are the given cells. -/
def ofBitsLE : List Nat → Nat
  | [] => 0
  | b :: bs => b + 2 * ofBitsLE bs

/-- Modelled from the spec: the encoders. An integer or raw scaled integer emits `value − min`
as a little-endian field of `bitsPerRecord` bits, a single float its 32 bits, a double float
its 64 bits, a string its length followed by its bytes. -/
def encodeValue : FieldType → FieldValue → List Nat
  | .integer min max, .integer v => toBitsLE (bitsPerRecord min max) (v - min).toNat
  | .scaledInteger min max _ _, .integer v => toBitsLE (bitsPerRecord min max) (v - min).toNat
  | .float .single, .float _ bits => toBitsLE 32 bits
  | .float .double, .float _ bits => toBitsLE 64 bits
  | .ustring, .ustring utf8 => utf8.length :: utf8
  | _, _ => []

/-- Modelled from the spec: the decoders, the reverse of the encoders: the next record of a
stream and the cells after it, `none` when the stream ends inside the record. -/
def decodeValue : FieldType → List Nat → Option (FieldValue × List Nat)
  | .integer min max, cells =>
    if cells.length < bitsPerRecord min max then none
    else some (.integer (min + ofBitsLE (cells.take (bitsPerRecord min max))),
      cells.drop (bitsPerRecord min max))
  | .scaledInteger min max _ _, cells =>
    if cells.length < bitsPerRecord min max then none
    else some (.integer (min + ofBitsLE (cells.take (bitsPerRecord min max))),
      cells.drop (bitsPerRecord min max))
  | .float .single, cells =>
    if cells.length < 32 then none
    else some (.float .single (ofBitsLE (cells.take 32)), cells.drop 32)
  | .float .double, cells =>
    if cells.length < 64 then none
    else some (.float .double (ofBitsLE (cells.take 64)), cells.drop 64)
  | .ustring, [] => none
  | .ustring, len :: rest =>
    if rest.length < len then none else some (.ustring (rest.take len), rest.drop len)

/-- Modelled from the spec: the bytestream of a column of values: the encoded records one
after the other. -/
def encodeColumn (type : FieldType) : List FieldValue → List Nat
  | [] => []
  | v :: vs => encodeValue type v ++ encodeColumn type vs

/-- Modelled from the spec: the first `count` records of a bytestream, `none` when the stream
ends before. -/
def decodeColumn (type : FieldType) : Nat → List Nat → Option (List FieldValue)
  | 0, _ => some []
  | count + 1, cells =>
    match decodeValue type cells with
    | none => none
    | some (v, rest) =>
      match decodeColumn type count rest with
      | none => none
      | some vs => some (v :: vs)

/-- Modelled from the spec: the range check of the writer: whether a value lies outside the
bounds `[min,max]` of an `Integer` or `ScaledInteger` field. -/
def FieldType.outOfBounds : FieldType → FieldValue → Bool
  | .integer min max, .integer v => decide (v < min ∨ max < v)
  | .scaledInteger min max _ _, .integer v => decide (v < min ∨ max < v)
  | _, _ => false

/-- Modelled from the spec: whether a field is a `ScaledInteger`. -/
def FieldType.isScaled : FieldType → Bool
  | .scaledInteger _ _ _ _ => true
  | _ => false

/-- Modelled from the spec: the conversions a buffer can ask for, which work on floating-point
values and are left open: the conversion of an element to the type of the field and back, and
the scaling of a raw scaled integer and its inverse. -/
structure Conversions where
  toField : SourceDestBuffer → FieldType → FieldValue → Except ErrorCode FieldValue
  fromField : SourceDestBuffer → FieldType → FieldValue → Except ErrorCode FieldValue
  unscale : FieldType → FieldValue → Except ErrorCode FieldValue
  scale : FieldType → FieldValue → Except ErrorCode FieldValue

/-- Modelled from the spec: steps 1 to 4 of the per-record pipeline of the writer for one
element. An element whose type differs from that of the field is converted when the buffer
asks for it and fails `ConversionRequired` otherwise; the bounds of the field are checked
(`ValueOutOfBounds`); for a scaled integer the value is unscaled when the buffer asks for
scaling and is the raw integer otherwise. -/
def loadElement (conv : Conversions) (b : SourceDestBuffer) (type : FieldType)
    (v : FieldValue) : Except ErrorCode FieldValue :=
  let converted :=
    if b.elementType.matchesField type then .ok v
    else if b.doConversion then conv.toField b type v
    else .error .ErrorConversionRequired
  match converted with
  | .error e => .error e
  | .ok u =>
    if type.outOfBounds u then .error .ErrorValueOutOfBounds
    else if type.isScaled && b.doScaling then conv.unscale type u
    else .ok u

/-- Modelled from the spec: the reverse conversion policy of the reader for one decoded
value: scaled when the buffer asks for scaling, converted to the element type of the buffer
when it differs from the type of the field and the buffer asks for conversion
(`ConversionRequired` otherwise); a value the element type cannot hold fails
`ValueNotRepresentable`. -/
def storeElement (conv : Conversions) (b : SourceDestBuffer) (type : FieldType)
    (raw : FieldValue) : Except ErrorCode FieldValue :=
  let scaled := if type.isScaled && b.doScaling then conv.scale type raw else .ok raw
  match scaled with
  | .error e => .error e
  | .ok u =>
    let converted :=
      if b.elementType.matchesField type then .ok u
      else if b.doConversion then conv.fromField b type u
      else .error .ErrorConversionRequired
    match converted with
    | .error e => .error e
    | .ok x => if b.elementType.holds x then .ok x else .error .ErrorValueNotRepresentable

/-- Modelled from the spec: the pipeline of the writer over the elements of one buffer, in
order: the cells to append
to the bytestream of the field, or the first error. -/
def loadColumn (conv : Conversions) (b : SourceDestBuffer) (type : FieldType) :
    List FieldValue → Except ErrorCode (List Nat)
  | [] => .ok []
  | v :: vs =>
    match loadElement conv b type v with
    | .error e => .error e
    | .ok u =>
      match loadColumn conv b type vs with
      | .error e => .error e
      | .ok cells => .ok (encodeValue type u ++ cells)

/-- Modelled from the spec: the reverse conversion policy of the reader over the decoded
values of one field, in order: the elements stored in the buffer, or the first error. -/
def storeColumn (conv : Conversions) (b : SourceDestBuffer) (type : FieldType) :
    List FieldValue → Except ErrorCode (List FieldValue)
  | [] => .ok []
  | v :: vs =>
    match storeElement conv b type v with
    | .error e => .error e
    | .ok x =>
      match storeColumn conv b type vs with
      | .error e => .error e
      | .ok xs => .ok (x :: xs)

/-- Modelled from the spec: the bytestream of one prototype leaf in a write session: the type
of the leaf, the buffer bound to it and the cells encoded so far. -/
structure Bytestream where
  type : FieldType
  buffer : SourceDestBuffer
  cells : List Nat

/-- Modelled from the spec: the data packets of a binary section, seen bytestream by
bytestream: `payloads` holds, for each bytestream, its payload in each data packet in turn;
`recordCount` is the number of records of the section. -/
structure BinarySection where
  payloads : List (List (List Nat))
  recordCount : Nat

/-- Modelled from the spec: the data of a write session: the session object, one bytestream
per prototype leaf and the number of records written. -/
structure WriteSession where
  impl : CompressedVectorWriterImpl
  streams : List Bytestream
  recordCount : Nat

/-- Modelled from the spec: the bytestreams built at session open from the walk of the
prototype, one per leaf, each with the buffer bound to the leaf (leaves and buffers in the
same order). -/
def openStreams : List FieldType → List SourceDestBuffer → List Bytestream
  | t :: ts, b :: bs => { type := t, buffer := b, cells := [] } :: openStreams ts bs
  | _, _ => []

/-- Modelled from the spec: the write session over the session object that `writer()`
returns, for a prototype with the given leaves. -/
def WriteSession.start (fields : List FieldType) (w : CompressedVectorWriterImpl) :
    WriteSession :=
  { impl := w, streams := openStreams fields w.sbufs_, recordCount := 0 }

/-- Modelled from the spec: the first `n` elements of each array go through the pipeline of
their field and are appended to its bytestream; `arrays` holds the contents of the bound
buffers, in the order of the bytestreams. -/
def writeStreams (conv : Conversions) (n : Nat) :
    List Bytestream → List (List FieldValue) → Except ErrorCode (List Bytestream)
  | [], _ => .ok []
  | _ :: _, [] => .error .ErrorNoBufferForElement
  | s :: ss, a :: as =>
    match loadColumn conv s.buffer s.type (a.take n) with
    | .error e => .error e
    | .ok cells =>
      match writeStreams conv n ss as with
      | .error e => .error e
      | .ok rest => .ok ({ s with cells := s.cells ++ cells } :: rest)

/-- Modelled from the spec: `write(n)` of the write session: it fails `WriterNotOpen` on a
closed session and `BadAPIArgument` when `n` exceeds the capacity of a buffer; otherwise the
first `n` elements of every buffer are consumed. -/
def WriteSession.write (conv : Conversions) (s : WriteSession)
    (arrays : List (List FieldValue)) (n : Nat) : Except ErrorCode WriteSession :=
  if !s.impl.isOpen_ then
    .error .ErrorWriterNotOpen
  else if s.impl.sbufs_.any (fun b => decide (b.capacity < n)) then
    .error .ErrorBadAPIArgument
  else
    match writeStreams conv n s.streams arrays with
    | .error e => .error e
    | .ok streams => .ok { s with streams := streams, recordCount := s.recordCount + n }

/-- Modelled from the spec: the byte-alignment rule: a bit-packed stream is padded with zero
bits to the next byte boundary; a string stream is made of whole bytes. -/
def padding (type : FieldType) (cells : List Nat) : List Nat :=
  match type with
  | .ustring => []
  | _ => List.replicate ((8 - cells.length % 8) % 8) 0

/-- Modelled from the spec: the cut of a bytestream into the payloads of successive packets: the
sizes of all payloads but the last, which takes what is left. -/
def cutPayloads : List Nat → List Nat → List (List Nat)
  | [], cells => [cells]
  | k :: ks, cells => cells.take k :: cutPayloads ks (cells.drop k)

/-- Modelled from the spec: `close()` of the write session: it fails `WriterNotOpen` on a
closed session; otherwise every bytestream is padded and written out in data packets, the
record count and the start of the section are patched on the vector, and the slot on the
container is released. The packet-flush policy is the parameter `cuts`, which gives for a
padded bytestream the sizes of its payloads in the packets before the last. -/
def WriteSession.close (cuts : FieldType → List Nat → List Nat) (s : WriteSession)
    (destImageFile : ImageFileImpl) (sectionLogicalStart : Nat) :
    Except ErrorCode
      (BinarySection × CompressedVectorNodeImpl × CompressedVectorWriterImpl ×
        ImageFileImpl) :=
  match s.impl.close destImageFile with
  | .error e => .error e
  | .ok (w, imf) =>
    .ok ({ payloads := s.streams.map (fun st =>
              cutPayloads (cuts st.type (st.cells ++ padding st.type st.cells))
                (st.cells ++ padding st.type st.cells)),
            recordCount := s.recordCount },
         { s.impl.cVector_ with
            recordCount_ := s.recordCount,
            binarySectionLogicalStart_ := sectionLogicalStart },
         w, imf)

/-- Modelled from the spec: the data of a read session: the session object, the leaves of the
prototype, the binary section and the cursor, the number of records read so far. -/
structure ReadSession where
  impl : CompressedVectorReaderImpl
  fields : List FieldType
  data : BinarySection
  cursor : Nat

/-- Modelled from the spec: the read session over the session object that `reader()` returns,
for a prototype with the given leaves; a buffer is bound to every leaf. -/
def ReadSession.start (fields : List FieldType) (data : BinarySection)
    (r : CompressedVectorReaderImpl) : ReadSession :=
  { impl := r, fields := fields, data := data, cursor := 0 }

/-- Modelled from the spec: the capacity of the bound buffers, which the session constructor
checks to be the same for all. -/
def bufferCapacity : List SourceDestBuffer → Nat
  | [] => 0
  | b :: _ => b.capacity

/-- Modelled from the spec: the decode loop for `count` records from the cursor on: for each
leaf the payloads of its bytestream are taken packet after packet, the records up to the end
of the slice are decoded (`BadCVPacket` when the stream ends before) and those from the
cursor on go through the reverse conversion policy into the buffer bound to the leaf. -/
def readStreams (conv : Conversions) (cursor count : Nat) :
    List FieldType → List SourceDestBuffer → List (List (List Nat)) →
      Except ErrorCode (List (List FieldValue))
  | [], _, _ => .ok []
  | _ :: _, [], _ => .error .ErrorNoBufferForElement
  | _ :: _, _ :: _, [] => .error .ErrorBadCVHeader
  | t :: ts, b :: bs, p :: ps =>
    match decodeColumn t (cursor + count) p.flatten with
    | none => .error .ErrorBadCVPacket
    | some vals =>
      match storeColumn conv b t (vals.drop cursor) with
      | .error e => .error e
      | .ok stored =>
        match readStreams conv cursor count ts bs ps with
        | .error e => .error e
        | .ok rest => .ok (stored :: rest)

/-- Modelled from the spec: `read()` of the read session: it fails `ReaderNotOpen` on a closed
session; otherwise it fills the bound buffers up to their capacity from the cursor on and
returns the number of records produced, 0 at the end, with the contents of the buffers. -/
def ReadSession.read (conv : Conversions) (r : ReadSession) :
    Except ErrorCode (Nat × List (List FieldValue) × ReadSession) :=
  if !r.impl.isOpen_ then
    .error .ErrorReaderNotOpen
  else
    match readStreams conv r.cursor
        (min (bufferCapacity r.impl.dbufs_) (r.data.recordCount - r.cursor))
        r.fields r.impl.dbufs_ r.data.payloads with
    | .error e => .error e
    | .ok arrays =>
      .ok (min (bufferCapacity r.impl.dbufs_) (r.data.recordCount - r.cursor), arrays,
        { r with
          cursor :=
            r.cursor + min (bufferCapacity r.impl.dbufs_) (r.data.recordCount - r.cursor) })

/-- A prototype leaf with the buffer bound to it for writing, the buffer bound to it for
reading and the contents of the write buffer. -/
structure BoundField where
  type : FieldType
  sbuf : SourceDestBuffer
  dbuf : SourceDestBuffer
  array : List FieldValue

/-- Matching buffers for `n` records without conversion: the write buffer has the element
type of the field, asks for no scaling, holds `capacity` elements and at least `n`; its first
`n` elements are well-formed elements of its type within the bounds of the field; the read
buffer has the same element type, asks for no scaling and holds at least `n` elements. -/
def BoundField.matching (n : Nat) (f : BoundField) : Bool :=
  f.sbuf.elementType.matchesField f.type && !f.sbuf.doScaling &&
  decide (f.array.length = f.sbuf.capacity) && decide (n ≤ f.sbuf.capacity) &&
  (f.array.take n).all (fun v => f.sbuf.elementType.holds v && !f.type.outOfBounds v) &&
  decide (f.dbuf.elementType = f.sbuf.elementType) && !f.dbuf.doScaling &&
  decide (n ≤ f.dbuf.capacity)

/-! ## Concrete objects -/

/-- A writable open container with no session. -/
def scanFile : ImageFileImpl :=
  { fileName := "scan.e57", isOpen := true, isWriter := true, writerCount := 0,
    readerCount := 0 }

/-- A read-only open container with no session. -/
def archiveFile : ImageFileImpl :=
  { fileName := "archive.e57", isOpen := true, isWriter := false, writerCount := 0,
    readerCount := 0 }

/-- A root structure node destined for container 7, with one integer field. -/
def pointProto : NodeImpl :=
  .mk .TypeStructure "" false 7 none [.mk .TypeInteger "x" false 7 (some 1) []]

/-- The integer field of `pointProto`: a node that has a parent. -/
def fieldX : NodeImpl :=
  .mk .TypeInteger "x" false 7 (some 1) []

/-- A root structure node destined for another container. -/
def foreignProto : NodeImpl :=
  .mk .TypeStructure "" false 8 none []

/-- A root vector node destined for container 7. -/
def emptyCodecs : NodeImpl :=
  .mk .TypeVector "" false 7 none []

/-- A compressed vector of container 7 as the constructor leaves it. -/
def freshVector : CompressedVectorNodeImpl :=
  { elementName_ := "", isAttached_ := false, destImageFile_ := 7, parent_ := none,
    prototype_ := none, codecs_ := none, recordCount_ := 0, binarySectionLogicalStart_ := 0 }

/-- A compressed vector of container 7 with prototype and codecs set, attached to the tree. -/
def pointsVector : CompressedVectorNodeImpl :=
  { elementName_ := "points", isAttached_ := true, destImageFile_ := 7, parent_ := some 2,
    prototype_ := some pointProto, codecs_ := some emptyCodecs, recordCount_ := 0,
    binarySectionLogicalStart_ := 0 }

/-- One buffer bound to the field `x`. -/
def bufX : SourceDestBuffer :=
  { pathName := "x", capacity := 4, stride := 8, elementType := .i64, doConversion := false,
    doScaling := false }

/-- Buffer checks that accept every buffer list. -/
def acceptBuffers : CompressedVectorNodeImpl → List SourceDestBuffer → Except ErrorCode Unit :=
  fun _ _ => .ok ()

/-- A type equivalence for the other node classes that compares the kind tags only; it has no
defined result on a null argument. -/
def kindEquivalent : NodeImpl → Option NodeImpl → Option Bool
  | _, none => none
  | p, some q => some (p.type == q.type)

/-- A root structure node destined for container 7 with a Blob child and a CompressedVector
child. -/
def blobProto : NodeImpl :=
  .mk .TypeStructure "" false 7 none
    [.mk .TypeBlob "image" false 7 (some 3) [],
     .mk .TypeCompressedVector "inner" false 7 (some 3) []]

/-- A second compressed vector of container 7 as the constructor leaves it, told apart from
`freshVector` by its element name. -/
def normalsVector : CompressedVectorNodeImpl :=
  { elementName_ := "normals", isAttached_ := false, destImageFile_ := 7, parent_ := none,
    prototype_ := none, codecs_ := none, recordCount_ := 0, binarySectionLogicalStart_ := 0 }

/-- A compressed vector of container 7 with three records whose binary section starts at
logical offset 2040. -/
def cloudVector : CompressedVectorNodeImpl :=
  { elementName_ := "points", isAttached_ := true, destImageFile_ := 7, parent_ := some 2,
    prototype_ := some pointProto, codecs_ := some emptyCodecs, recordCount_ := 3,
    binarySectionLogicalStart_ := 2040 }

/-- An empty output file with pages of 1024 bytes of which 1020 carry content. -/
def xmlFile : CheckedFile :=
  { logicalToPhysical := fun l => l / 1020 * 1024 + l % 1020, text := "" }

/-- The text a sample node writer emits: an empty element under the forced name. -/
def tagXml (_n : NodeImpl) (_imf : ImageFileImpl) (indent : Nat) (name : Option String) :
    String :=
  space indent ++ "<" ++ name.getD "node" ++ "/>\n"

/-- A sample node writer: it appends `tagXml`. -/
def tagWriteXml (n : NodeImpl) (imf : ImageFileImpl) (cf : CheckedFile) (indent : Nat)
    (name : Option String) : CheckedFile :=
  cf.put (tagXml n imf indent name)

/-- Conversions that refuse every request. -/
def noConversions : Conversions :=
  { toField := fun _ _ _ => .error .ErrorConversionRequired,
    fromField := fun _ _ _ => .error .ErrorConversionRequired,
    unscale := fun _ _ => .error .ErrorScaledValueNotRepresentable,
    scale := fun _ _ => .error .ErrorScaledValueNotRepresentable }

/-- A buffer of three elements of the given type bound to the given path, with no conversion
and no scaling. -/
def plainBuffer (pathName : String) (elementType : MemoryRepresentation) : SourceDestBuffer :=
  { pathName := pathName, capacity := 3, stride := 8, elementType := elementType,
    doConversion := false, doScaling := false }

/-- Three records over the fields `x : Integer[0..100]`, `y : Integer[-50..50]`, a single
float `w` and a string `s`: (0, -50, 1.0, ""), (100, 50, -2.0, "abc"), (42, 0, 0.0, "αβγ"). -/
def sampleFields : List BoundField :=
  [{ type := .integer 0 100, sbuf := plainBuffer "x" .i32, dbuf := plainBuffer "x" .i32,
     array := [.integer 0, .integer 100, .integer 42] },
   { type := .integer (-50) 50, sbuf := plainBuffer "y" .i8, dbuf := plainBuffer "y" .i8,
     array := [.integer (-50), .integer 50, .integer 0] },
   { type := .float .single, sbuf := plainBuffer "w" .f32, dbuf := plainBuffer "w" .f32,
     array := [.float .single 1065353216, .float .single 3221225472, .float .single 0] },
   { type := .ustring, sbuf := plainBuffer "s" .string, dbuf := plainBuffer "s" .string,
     array := [.ustring [], .ustring [97, 98, 99],
       .ustring [206, 177, 206, 178, 206, 179]] }]

/-- A packet-flush policy: payloads of sixteen cells, five packets before the last. -/
def sixteenCells : FieldType → List Nat → List Nat :=
  fun _ _ => [16, 16, 16, 16, 16]

/-! ## Theorems -/

open CompressedVectorNodeImpl

/-- C1: on a vector whose prototype is already set, `setPrototype` fails with `ErrorSetTwice`
for every argument, and on a vector whose codecs is already set, `setCodecs` fails with
`ErrorSetTwice` for every argument. -/
theorem setTwice_fails (self : CompressedVectorNodeImpl) (p c : NodeImpl) :
    (self.prototype_.isSome = true → self.setPrototype p = .error .ErrorSetTwice) ∧
    (self.codecs_.isSome = true → self.setCodecs c = .error .ErrorSetTwice) := by
  constructor
  · intro h
    simp [setPrototype, h]
  · intro h
    simp [setCodecs, h]

/-- The second set on `pointsVector` fails, also with an argument that is not root and with one
destined for another container. -/
theorem setTwice_fails_witness :
    (pointsVector.prototype_.isSome = true ∧ pointsVector.codecs_.isSome = true) ∧
    pointsVector.setPrototype fieldX = .error .ErrorSetTwice ∧
    pointsVector.setCodecs foreignProto = .error .ErrorSetTwice :=
  ⟨⟨rfl, rfl⟩, (setTwice_fails pointsVector fieldX foreignProto).1 rfl,
    (setTwice_fails pointsVector fieldX foreignProto).2 rfl⟩

/-- C2: with no prototype set, `setPrototype` of a node that has a parent fails with
`ErrorAlreadyHasParent` whatever the destination container of the node; likewise `setCodecs`
when no codecs is set. -/
theorem setNonRoot_fails (self : CompressedVectorNodeImpl) (p c : NodeImpl) :
    (self.prototype_ = none → p.isRoot = false →
      self.setPrototype p = .error .ErrorAlreadyHasParent) ∧
    (self.codecs_ = none → c.isRoot = false →
      self.setCodecs c = .error .ErrorAlreadyHasParent) := by
  constructor
  · intro h hr
    simp [setPrototype, h, hr]
  · intro h hr
    simp [setCodecs, h, hr]

/-- The field `x`, which has a parent, is rejected as prototype and as codecs of a fresh
vector. -/
theorem setNonRoot_fails_witness :
    (freshVector.prototype_ = none ∧ freshVector.codecs_ = none ∧ fieldX.isRoot = false) ∧
    freshVector.setPrototype fieldX = .error .ErrorAlreadyHasParent ∧
    freshVector.setCodecs fieldX = .error .ErrorAlreadyHasParent :=
  ⟨⟨rfl, rfl, rfl⟩, (setNonRoot_fails freshVector fieldX fieldX).1 rfl rfl,
    (setNonRoot_fails freshVector fieldX fieldX).2 rfl rfl⟩

/-- C3: with no prototype set, `setPrototype` of a root node whose destination container
differs from the vector's fails with `ErrorDifferentDestImageFile`; likewise `setCodecs` when
no codecs is set. -/
theorem setForeign_fails (self : CompressedVectorNodeImpl) (p c : NodeImpl) :
    (self.prototype_ = none → p.isRoot = true → p.destImageFile ≠ self.destImageFile_ →
      self.setPrototype p = .error .ErrorDifferentDestImageFile) ∧
    (self.codecs_ = none → c.isRoot = true → c.destImageFile ≠ self.destImageFile_ →
      self.setCodecs c = .error .ErrorDifferentDestImageFile) := by
  constructor
  · intro h hr hd
    simp [setPrototype, h, hr, Ne.symm hd]
  · intro h hr hd
    simp [setCodecs, h, hr, Ne.symm hd]

/-- A root node of container 8 is rejected as prototype and as codecs of a fresh vector of
container 7. -/
theorem setForeign_fails_witness :
    (freshVector.prototype_ = none ∧ freshVector.codecs_ = none ∧ foreignProto.isRoot = true ∧
      foreignProto.destImageFile ≠ freshVector.destImageFile_) ∧
    freshVector.setPrototype foreignProto = .error .ErrorDifferentDestImageFile ∧
    freshVector.setCodecs foreignProto = .error .ErrorDifferentDestImageFile :=
  ⟨⟨rfl, rfl, rfl, by decide⟩,
    (setForeign_fails freshVector foreignProto foreignProto).1 rfl rfl (by decide),
    (setForeign_fails freshVector foreignProto foreignProto).2 rfl rfl (by decide)⟩

/-- C4: `setPrototype p` returns without throwing exactly when the prototype is unset, `p` is
root and `p` has the destination container of the vector; after such a call `getPrototype` on
the open container returns `p`. The same holds for `setCodecs` and `getCodecs`. -/
theorem set_succeeds_iff_and_get (self : CompressedVectorNodeImpl) (p c : NodeImpl) :
    ((∃ v, self.setPrototype p = .ok v) ↔
      (self.prototype_ = none ∧ p.isRoot = true ∧ p.destImageFile = self.destImageFile_)) ∧
    (∀ v imf, self.setPrototype p = .ok v → imf.isOpen = true →
      v.getPrototype imf = .ok (some p)) ∧
    ((∃ v, self.setCodecs c = .ok v) ↔
      (self.codecs_ = none ∧ c.isRoot = true ∧ c.destImageFile = self.destImageFile_)) ∧
    (∀ v imf, self.setCodecs c = .ok v → imf.isOpen = true →
      v.getCodecs imf = .ok (some c)) := by
  refine ⟨?_, ?_, ?_, ?_⟩
  · unfold setPrototype
    cases hp : self.prototype_ <;> cases hr : p.isRoot <;>
      by_cases hd : self.destImageFile_ = p.destImageFile <;> simp [hd]
    exact fun h => hd h.symm
  · intro v imf hv ho
    unfold setPrototype at hv
    split at hv
    · cases hv
    · split at hv
      · cases hv
      · split at hv
        · cases hv
        · cases hv
          simp [getPrototype, checkImageFileOpen, ho]
  · unfold setCodecs
    cases hp : self.codecs_ <;> cases hr : c.isRoot <;>
      by_cases hd : self.destImageFile_ = c.destImageFile <;> simp [hd]
    exact fun h => hd h.symm
  · intro v imf hv ho
    unfold setCodecs at hv
    split at hv
    · cases hv
    · split at hv
      · cases hv
      · split at hv
        · cases hv
        · cases hv
          simp [getCodecs, checkImageFileOpen, ho]

/-- Setting `pointProto` and `emptyCodecs` on a fresh vector of the same container succeeds, and
the getters on the open container `scanFile` return them. -/
theorem set_succeeds_iff_and_get_witness :
    (∃ v, freshVector.setPrototype pointProto = .ok v ∧
      v.getPrototype scanFile = .ok (some pointProto)) ∧
    (∃ v, freshVector.setCodecs emptyCodecs = .ok v ∧
      v.getCodecs scanFile = .ok (some emptyCodecs)) := by
  have h := set_succeeds_iff_and_get freshVector pointProto emptyCodecs
  obtain ⟨v, hv⟩ := h.1.2 ⟨rfl, rfl, rfl⟩
  obtain ⟨w, hw⟩ := h.2.2.1.2 ⟨rfl, rfl, rfl⟩
  exact ⟨⟨v, hv, h.2.1 v scanFile hv rfl⟩, ⟨w, hw, h.2.2.2 w scanFile hw rfl⟩⟩

/-! ### Sequences of setter calls -/

/-- A setter call never changes the destination container of the vector. -/
theorem setCalls_apply_destImageFile (v : CompressedVectorNodeImpl) (call : SetCall) :
    (SetCall.apply v call).destImageFile_ = v.destImageFile_ := by
  cases call with
  | setPrototype p =>
    simp only [SetCall.apply, setPrototype]
    split_ifs <;> rfl
  | setCodecs c =>
    simp only [SetCall.apply, setCodecs]
    split_ifs <;> rfl

/-- A prototype that is set survives every setter call. -/
theorem setCalls_apply_prototype_stable (v : CompressedVectorNodeImpl) (call : SetCall)
    (p : NodeImpl) (h : v.prototype_ = some p) : (SetCall.apply v call).prototype_ = some p := by
  cases call with
  | setPrototype q =>
    simp [SetCall.apply, setPrototype, h]
  | setCodecs c =>
    simp only [SetCall.apply, setCodecs]
    split_ifs <;> exact h

/-- A codecs that is set survives every setter call. -/
theorem setCalls_apply_codecs_stable (v : CompressedVectorNodeImpl) (call : SetCall)
    (c : NodeImpl) (h : v.codecs_ = some c) : (SetCall.apply v call).codecs_ = some c := by
  cases call with
  | setCodecs q =>
    simp [SetCall.apply, setCodecs, h]
  | setPrototype p =>
    simp only [SetCall.apply, setPrototype]
    split_ifs <;> exact h

/-- A prototype that is set survives every sequence of setter calls. -/
theorem setCalls_run_prototype_stable (calls : List SetCall) (v : CompressedVectorNodeImpl)
    (p : NodeImpl) (h : v.prototype_ = some p) : (SetCall.run v calls).prototype_ = some p := by
  induction calls generalizing v with
  | nil => exact h
  | cons call rest ih => exact ih _ (setCalls_apply_prototype_stable v call p h)

/-- A codecs that is set survives every sequence of setter calls. -/
theorem setCalls_run_codecs_stable (calls : List SetCall) (v : CompressedVectorNodeImpl)
    (c : NodeImpl) (h : v.codecs_ = some c) : (SetCall.run v calls).codecs_ = some c := by
  induction calls generalizing v with
  | nil => exact h
  | cons call rest ih => exact ih _ (setCalls_apply_codecs_stable v call c h)

/-- Running a concatenation is running the two parts in turn. -/
theorem setCalls_run_append (calls more : List SetCall) (v : CompressedVectorNodeImpl) :
    SetCall.run v (calls ++ more) = SetCall.run (SetCall.run v calls) more := by
  induction calls generalizing v with
  | nil => rfl
  | cons call rest ih => exact ih _

/-- The destination container is the same after every sequence of setter calls. -/
theorem setCalls_run_destImageFile (calls : List SetCall) (v : CompressedVectorNodeImpl) :
    (SetCall.run v calls).destImageFile_ = v.destImageFile_ := by
  induction calls generalizing v with
  | nil => rfl
  | cons call rest ih =>
    exact (ih _).trans (setCalls_apply_destImageFile v call)

/-- What a setter call leaves in the prototype slot is root and of the container of the vector,
when that held before. -/
theorem setCalls_apply_prototype_wellSet (v : CompressedVectorNodeImpl) (call : SetCall)
    (h : ∀ p, v.prototype_ = some p → p.isRoot = true ∧ p.destImageFile = v.destImageFile_)
    (p : NodeImpl) (hp : (SetCall.apply v call).prototype_ = some p) :
    p.isRoot = true ∧ p.destImageFile = v.destImageFile_ := by
  cases call with
  | setPrototype q =>
    simp only [SetCall.apply, setPrototype] at hp
    split_ifs at hp with h1 h2 h3
    · exact h p hp
    · exact h p hp
    · exact h p hp
    · simp only [Option.some.injEq] at hp
      subst hp
      simp only [Bool.not_eq_true, Bool.not_eq_eq_eq_not, Bool.not_true, bne_iff_ne, ne_eq,
        Decidable.not_not, Bool.not_eq_false] at h2 h3
      exact ⟨h2, h3.symm⟩
  | setCodecs c =>
    simp only [SetCall.apply, setCodecs] at hp
    split_ifs at hp <;> exact h p hp

/-- What a setter call leaves in the codecs slot is root and of the container of the vector,
when that held before. -/
theorem setCalls_apply_codecs_wellSet (v : CompressedVectorNodeImpl) (call : SetCall)
    (h : ∀ c, v.codecs_ = some c → c.isRoot = true ∧ c.destImageFile = v.destImageFile_)
    (c : NodeImpl) (hc : (SetCall.apply v call).codecs_ = some c) :
    c.isRoot = true ∧ c.destImageFile = v.destImageFile_ := by
  cases call with
  | setCodecs q =>
    simp only [SetCall.apply, setCodecs] at hc
    split_ifs at hc with h1 h2 h3
    · exact h c hc
    · exact h c hc
    · exact h c hc
    · simp only [Option.some.injEq] at hc
      subst hc
      simp only [Bool.not_eq_true, Bool.not_eq_eq_eq_not, Bool.not_true, bne_iff_ne, ne_eq,
        Decidable.not_not, Bool.not_eq_false] at h2 h3
      exact ⟨h2, h3.symm⟩
  | setPrototype p =>
    simp only [SetCall.apply, setPrototype] at hc
    split_ifs at hc <;> exact h c hc

/-- The set-values invariant is kept along a sequence of setter calls. -/
theorem setCalls_run_wellSet (calls : List SetCall) (v : CompressedVectorNodeImpl)
    (hp : ∀ p, v.prototype_ = some p → p.isRoot = true ∧ p.destImageFile = v.destImageFile_)
    (hc : ∀ c, v.codecs_ = some c → c.isRoot = true ∧ c.destImageFile = v.destImageFile_) :
    (∀ p, (SetCall.run v calls).prototype_ = some p →
      p.isRoot = true ∧ p.destImageFile = v.destImageFile_) ∧
    (∀ c, (SetCall.run v calls).codecs_ = some c →
      c.isRoot = true ∧ c.destImageFile = v.destImageFile_) := by
  induction calls generalizing v with
  | nil => exact ⟨hp, hc⟩
  | cons call rest ih =>
    have hd := setCalls_apply_destImageFile v call
    have := ih (SetCall.apply v call)
      (fun p h => hd ▸ setCalls_apply_prototype_wellSet v call hp p h)
      (fun c h => hd ▸ setCalls_apply_codecs_wellSet v call hc c h)
    rw [hd] at this
    exact this

/-- Once the prototype is set no later `setPrototype` call returns. -/
theorem setCalls_prototypeAssignments_of_set (calls : List SetCall)
    (v : CompressedVectorNodeImpl) (h : v.prototype_.isSome = true) :
    SetCall.prototypeAssignments v calls = 0 := by
  induction calls generalizing v with
  | nil => rfl
  | cons call rest ih =>
    obtain ⟨p, hp⟩ := Option.isSome_iff_exists.mp h
    have hs : (SetCall.apply v call).prototype_.isSome = true := by
      rw [setCalls_apply_prototype_stable v call p hp]; rfl
    cases call with
    | setPrototype q =>
      simp only [SetCall.prototypeAssignments, ih _ hs]
      simp [setPrototype, h]
    | setCodecs c =>
      simp only [SetCall.prototypeAssignments, ih _ hs]

/-- Once the codecs is set no later `setCodecs` call returns. -/
theorem setCalls_codecsAssignments_of_set (calls : List SetCall)
    (v : CompressedVectorNodeImpl) (h : v.codecs_.isSome = true) :
    SetCall.codecsAssignments v calls = 0 := by
  induction calls generalizing v with
  | nil => rfl
  | cons call rest ih =>
    obtain ⟨c, hc⟩ := Option.isSome_iff_exists.mp h
    have hs : (SetCall.apply v call).codecs_.isSome = true := by
      rw [setCalls_apply_codecs_stable v call c hc]; rfl
    cases call with
    | setCodecs q =>
      simp only [SetCall.codecsAssignments, ih _ hs]
      simp [setCodecs, h]
    | setPrototype p =>
      simp only [SetCall.codecsAssignments, ih _ hs]

/-- At most one `setPrototype` call of a sequence returns. -/
theorem setCalls_prototypeAssignments_le_one (calls : List SetCall)
    (v : CompressedVectorNodeImpl) : SetCall.prototypeAssignments v calls ≤ 1 := by
  induction calls generalizing v with
  | nil => simp [SetCall.prototypeAssignments]
  | cons call rest ih =>
    cases call with
    | setCodecs c => exact ih _
    | setPrototype q =>
      simp only [SetCall.prototypeAssignments]
      cases hq : v.setPrototype q with
      | error e =>
        simp only [zero_add]
        exact ih _
      | ok v1 =>
        have hs : (SetCall.apply v (.setPrototype q)).prototype_.isSome = true := by
          simp only [SetCall.apply, hq]
          unfold setPrototype at hq
          split_ifs at hq
          cases hq
          rfl
        rw [setCalls_prototypeAssignments_of_set rest _ hs]

/-- At most one `setCodecs` call of a sequence returns. -/
theorem setCalls_codecsAssignments_le_one (calls : List SetCall)
    (v : CompressedVectorNodeImpl) : SetCall.codecsAssignments v calls ≤ 1 := by
  induction calls generalizing v with
  | nil => simp [SetCall.codecsAssignments]
  | cons call rest ih =>
    cases call with
    | setPrototype p => exact ih _
    | setCodecs q =>
      simp only [SetCall.codecsAssignments]
      cases hq : v.setCodecs q with
      | error e =>
        simp only [zero_add]
        exact ih _
      | ok v1 =>
        have hs : (SetCall.apply v (.setCodecs q)).codecs_.isSome = true := by
          simp only [SetCall.apply, hq]
          unfold setCodecs at hq
          split_ifs at hq
          cases hq
          rfl
        rw [setCalls_codecsAssignments_of_set rest _ hs]

/-- C5: in every state reached from a freshly constructed vector by a sequence of
`setPrototype` and `setCodecs` calls, returning or throwing, at most one `setPrototype` call
and at most one `setCodecs` call has assigned; a prototype (codecs) that is set stays the same
under every further sequence of calls, is a root node and has the destination container of
the vector. -/
theorem setCalls_invariant (destId : Nat) (imf : ImageFileImpl) (v0 : CompressedVectorNodeImpl)
    (h0 : CompressedVectorNodeImpl.new destId imf = .ok v0) (calls : List SetCall) :
    SetCall.prototypeAssignments v0 calls ≤ 1 ∧ SetCall.codecsAssignments v0 calls ≤ 1 ∧
    (∀ p, (SetCall.run v0 calls).prototype_ = some p →
      (∀ more, (SetCall.run v0 (calls ++ more)).prototype_ = some p) ∧
      p.isRoot = true ∧ p.destImageFile = (SetCall.run v0 calls).destImageFile_) ∧
    (∀ c, (SetCall.run v0 calls).codecs_ = some c →
      (∀ more, (SetCall.run v0 (calls ++ more)).codecs_ = some c) ∧
      c.isRoot = true ∧ c.destImageFile = (SetCall.run v0 calls).destImageFile_) := by
  have hfresh : v0.prototype_ = none ∧ v0.codecs_ = none := by
    unfold CompressedVectorNodeImpl.new at h0
    split at h0
    · cases h0
    · cases h0
      exact ⟨rfl, rfl⟩
  have hw := setCalls_run_wellSet calls v0
    (fun p h => by rw [hfresh.1] at h; cases h)
    (fun c h => by rw [hfresh.2] at h; cases h)
  rw [← setCalls_run_destImageFile calls v0] at hw
  refine ⟨setCalls_prototypeAssignments_le_one calls v0,
    setCalls_codecsAssignments_le_one calls v0, ?_, ?_⟩
  · intro p hp
    refine ⟨fun more => ?_, hw.1 p hp⟩
    rw [setCalls_run_append]
    exact setCalls_run_prototype_stable more _ p hp
  · intro c hc
    refine ⟨fun more => ?_, hw.2 c hc⟩
    rw [setCalls_run_append]
    exact setCalls_run_codecs_stable more _ c hc

/-- A run on a fresh vector of container 7: a non-root prototype is refused, `pointProto` is
set, a second prototype is refused, `emptyCodecs` is set. -/
theorem setCalls_invariant_witness :
    CompressedVectorNodeImpl.new 7 scanFile = .ok freshVector ∧
    (SetCall.run freshVector [.setPrototype fieldX, .setPrototype pointProto,
      .setPrototype foreignProto, .setCodecs emptyCodecs]).prototype_ = some pointProto ∧
    (∀ more, (SetCall.run freshVector ([.setPrototype fieldX, .setPrototype pointProto,
      .setPrototype foreignProto, .setCodecs emptyCodecs] ++ more)).prototype_
        = some pointProto) ∧
    SetCall.prototypeAssignments freshVector [.setPrototype fieldX, .setPrototype pointProto,
      .setPrototype foreignProto, .setCodecs emptyCodecs] ≤ 1 :=
  ⟨rfl, rfl,
    ((setCalls_invariant 7 scanFile freshVector rfl [.setPrototype fieldX,
      .setPrototype pointProto, .setPrototype foreignProto,
      .setCodecs emptyCodecs]).2.2.1 pointProto rfl).1,
    (setCalls_invariant 7 scanFile freshVector rfl [.setPrototype fieldX,
      .setPrototype pointProto, .setPrototype foreignProto, .setCodecs emptyCodecs]).1⟩

/-! ### The checks of `writer` and `reader` -/

/-- C6: on an open container with an open writer, `writer` and `reader` fail with
`ErrorTooManyWriters` for every vector, attachment state and buffer list; on an open container
with no writer and an open reader both fail with `ErrorTooManyReaders`. -/
theorem open_session_excludes
    (checkW checkR : CompressedVectorNodeImpl → List SourceDestBuffer → Except ErrorCode Unit)
    (self : CompressedVectorNodeImpl) (imf : ImageFileImpl) (bufs : List SourceDestBuffer)
    (ho : imf.isOpen = true) :
    (imf.writerCount > 0 →
      self.writer checkW imf bufs = .error .ErrorTooManyWriters ∧
      self.reader checkR imf bufs = .error .ErrorTooManyWriters) ∧
    (imf.writerCount = 0 → imf.readerCount > 0 →
      self.writer checkW imf bufs = .error .ErrorTooManyReaders ∧
      self.reader checkR imf bufs = .error .ErrorTooManyReaders) := by
  constructor
  · intro hw
    simp [writer, reader, checkImageFileOpen, ho, hw]
  · intro hw hr
    simp [writer, reader, checkImageFileOpen, ho, hw, hr]

/-- With one writer open on `scanFile`, and with one reader open on it, a further open on the
attached vector `pointsVector` with the buffer `bufX` is refused. -/
theorem open_session_excludes_witness :
    (pointsVector.writer acceptBuffers { scanFile with writerCount := 1 } [bufX]
        = .error .ErrorTooManyWriters ∧
      pointsVector.reader acceptBuffers { scanFile with writerCount := 1 } [bufX]
        = .error .ErrorTooManyWriters) ∧
    (pointsVector.writer acceptBuffers { scanFile with readerCount := 1 } [bufX]
        = .error .ErrorTooManyReaders ∧
      pointsVector.reader acceptBuffers { scanFile with readerCount := 1 } [bufX]
        = .error .ErrorTooManyReaders) :=
  ⟨(open_session_excludes acceptBuffers acceptBuffers pointsVector
      { scanFile with writerCount := 1 } [bufX] rfl).1 (by decide),
    (open_session_excludes acceptBuffers acceptBuffers pointsVector
      { scanFile with readerCount := 1 } [bufX] rfl).2 rfl (by decide)⟩

/-- C8: on an open container with no open writer and no open reader, `writer` and `reader`
with an empty buffer list fail with `ErrorBadAPIArgument`, whatever the write mode of the
container and the attachment state of the vector. -/
theorem empty_buffers_rejected
    (checkW checkR : CompressedVectorNodeImpl → List SourceDestBuffer → Except ErrorCode Unit)
    (self : CompressedVectorNodeImpl) (imf : ImageFileImpl)
    (ho : imf.isOpen = true) (hw : imf.writerCount = 0) (hr : imf.readerCount = 0) :
    self.writer checkW imf [] = .error .ErrorBadAPIArgument ∧
    self.reader checkR imf [] = .error .ErrorBadAPIArgument := by
  simp [writer, reader, checkImageFileOpen, ho, hw, hr]

/-- The unattached fresh vector on the read-only container `archiveFile`: an empty buffer list
is what is reported. -/
theorem empty_buffers_rejected_witness :
    (archiveFile.isOpen = true ∧ archiveFile.writerCount = 0 ∧ archiveFile.readerCount = 0) ∧
    freshVector.writer acceptBuffers archiveFile [] = .error .ErrorBadAPIArgument ∧
    freshVector.reader acceptBuffers archiveFile [] = .error .ErrorBadAPIArgument :=
  ⟨⟨rfl, rfl, rfl⟩,
    empty_buffers_rejected acceptBuffers acceptBuffers freshVector archiveFile rfl rfl rfl⟩

/-- C9: on an open container that is not open for writing, with no open writer or reader,
`writer` with a non-empty buffer list fails with `ErrorFileReadOnly`, attached or not; and
`writer` never returns a session on a container that is not open for writing. -/
theorem writer_needs_writable
    (checkW : CompressedVectorNodeImpl → List SourceDestBuffer → Except ErrorCode Unit)
    (self : CompressedVectorNodeImpl) (imf : ImageFileImpl) (sbufs : List SourceDestBuffer) :
    (imf.isOpen = true → imf.isWriter = false → imf.writerCount = 0 → imf.readerCount = 0 →
      sbufs ≠ [] → self.writer checkW imf sbufs = .error .ErrorFileReadOnly) ∧
    (imf.isWriter = false → ∀ r, self.writer checkW imf sbufs ≠ .ok r) := by
  constructor
  · intro ho hm hw hr hb
    simp [writer, checkImageFileOpen, ho, hm, hw, hr, hb]
  · intro hm r
    unfold writer
    split
    · simp
    · split_ifs <;> simp_all

/-- On the read-only container `archiveFile` no writer is obtained, on the attached vector
and on the unattached one. -/
theorem writer_needs_writable_witness :
    (archiveFile.isOpen = true ∧ archiveFile.isWriter = false) ∧
    pointsVector.writer acceptBuffers archiveFile [bufX] = .error .ErrorFileReadOnly ∧
    freshVector.writer acceptBuffers archiveFile [bufX] = .error .ErrorFileReadOnly ∧
    (∀ r, pointsVector.writer acceptBuffers archiveFile [bufX] ≠ .ok r) :=
  ⟨⟨rfl, rfl⟩,
    (writer_needs_writable acceptBuffers pointsVector archiveFile [bufX]).1 rfl rfl rfl rfl
      (by simp),
    (writer_needs_writable acceptBuffers freshVector archiveFile [bufX]).1 rfl rfl rfl rfl
      (by simp),
    (writer_needs_writable acceptBuffers pointsVector archiveFile [bufX]).2 rfl⟩

/-- C10: on an open container with no open writer or reader, for a vector that is not attached
and a non-empty buffer list, `reader` fails with `ErrorNodeUnattached`, and so does `writer`
when the container is writable; neither ever returns a session on a vector that is not
attached. -/
theorem session_needs_attached
    (checkW checkR : CompressedVectorNodeImpl → List SourceDestBuffer → Except ErrorCode Unit)
    (self : CompressedVectorNodeImpl) (imf : ImageFileImpl) (bufs : List SourceDestBuffer)
    (ha : self.isAttached = false) :
    (imf.isOpen = true → imf.writerCount = 0 → imf.readerCount = 0 → bufs ≠ [] →
      self.reader checkR imf bufs = .error .ErrorNodeUnattached ∧
      (imf.isWriter = true → self.writer checkW imf bufs = .error .ErrorNodeUnattached)) ∧
    (∀ r, self.reader checkR imf bufs ≠ .ok r) ∧
    (∀ w, self.writer checkW imf bufs ≠ .ok w) := by
  refine ⟨?_, ?_, ?_⟩
  · intro ho hw hr hb
    constructor
    · simp [reader, checkImageFileOpen, ho, ha, hw, hr, hb]
    · intro hm
      simp [writer, checkImageFileOpen, ho, hm, ha, hw, hr, hb]
  · intro r
    unfold reader
    split
    · simp
    · split_ifs <;> simp_all
  · intro w
    unfold writer
    split
    · simp
    · split_ifs <;> simp_all

/-- The unattached fresh vector on the writable container `scanFile`: no session either way. -/
theorem session_needs_attached_witness :
    freshVector.isAttached = false ∧
    freshVector.reader acceptBuffers scanFile [bufX] = .error .ErrorNodeUnattached ∧
    freshVector.writer acceptBuffers scanFile [bufX] = .error .ErrorNodeUnattached :=
  ⟨rfl,
    ((session_needs_attached acceptBuffers acceptBuffers freshVector scanFile [bufX] rfl).1
      rfl rfl rfl (by simp)).1,
    ((session_needs_attached acceptBuffers acceptBuffers freshVector scanFile [bufX] rfl).1
      rfl rfl rfl (by simp)).2 rfl⟩

/-! ### Sessions of one container -/

/-- Replacing an element that satisfies `p` by one that does not lowers the count by one. -/
theorem countP_set_drop {α : Type} (p : α → Bool) (l : List α) (i : Nat) (a b : α)
    (h : l.get? i = some a) (ha : p a = true) (hb : p b = false) :
    (l.set i b).countP p + 1 = l.countP p := by
  induction l generalizing i with
  | nil => simp at h
  | cons x xs ih =>
    cases i with
    | zero =>
      simp only [List.get?_cons_zero, Option.some.injEq] at h
      subst h
      simp [List.countP_cons, ha, hb]
    | succ j =>
      simp only [List.get?_cons_succ] at h
      have := ih j h
      simp only [List.set_cons_succ, List.countP_cons]
      omega

/-- Writing back the element that is already there changes nothing. -/
theorem set_get_self {α : Type} (l : List α) (i : Nat) (a : α) (h : l.get? i = some a) :
    l.set i a = l := by
  induction l generalizing i with
  | nil => rfl
  | cons x xs ih =>
    cases i with
    | zero =>
      simp only [List.get?_cons_zero, Option.some.injEq] at h
      subst h
      rfl
    | succ j =>
      simp only [List.get?_cons_succ] at h
      simp only [List.set_cons_succ, ih j h]

/-- A `writer` call that returns found both counters non-positive, hands out an open session
and raises the writer counter by one. -/
theorem writer_ok_inv
    (checkW : CompressedVectorNodeImpl → List SourceDestBuffer → Except ErrorCode Unit)
    (self : CompressedVectorNodeImpl) (imf imf1 : ImageFileImpl) (sbufs : List SourceDestBuffer)
    (w : CompressedVectorWriterImpl) (h : self.writer checkW imf sbufs = .ok (w, imf1)) :
    imf.writerCount ≤ 0 ∧ imf.readerCount ≤ 0 ∧ w.isOpen_ = true ∧
    imf1.writerCount = imf.writerCount + 1 ∧ imf1.readerCount = imf.readerCount := by
  unfold writer at h
  split at h
  · cases h
  · split_ifs at h with h1 h2 h3 h4 h5
    unfold CompressedVectorWriterImpl.new at h
    split at h
    · cases h
    · cases h
      exact ⟨not_lt.mp h1, not_lt.mp h2, rfl, rfl, rfl⟩

/-- A `reader` call that returns found both counters non-positive, hands out an open session
and raises the reader counter by one. -/
theorem reader_ok_inv
    (checkR : CompressedVectorNodeImpl → List SourceDestBuffer → Except ErrorCode Unit)
    (self : CompressedVectorNodeImpl) (imf imf1 : ImageFileImpl) (dbufs : List SourceDestBuffer)
    (r : CompressedVectorReaderImpl) (h : self.reader checkR imf dbufs = .ok (r, imf1)) :
    imf.writerCount ≤ 0 ∧ imf.readerCount ≤ 0 ∧ r.isOpen_ = true ∧
    imf1.readerCount = imf.readerCount + 1 ∧ imf1.writerCount = imf.writerCount := by
  unfold reader at h
  split at h
  · cases h
  · split_ifs at h with h1 h2 h3 h4
    unfold CompressedVectorReaderImpl.new at h
    split at h
    · cases h
    · cases h
      exact ⟨not_lt.mp h1, not_lt.mp h2, rfl, rfl, rfl⟩

/-- One session event keeps: each counter equals the number of open sessions of its kind, and
there is at most one open session. -/
theorem step_keeps_slots
    (checkW checkR : CompressedVectorNodeImpl → List SourceDestBuffer → Except ErrorCode Unit)
    (s : ContainerState) (call : SessionCall)
    (hw : s.imf.writerCount = s.openWriters) (hr : s.imf.readerCount = s.openReaders)
    (hs : s.openWriters + s.openReaders ≤ 1) :
    (s.step checkW checkR call).imf.writerCount = (s.step checkW checkR call).openWriters ∧
    (s.step checkW checkR call).imf.readerCount = (s.step checkW checkR call).openReaders ∧
    (s.step checkW checkR call).openWriters + (s.step checkW checkR call).openReaders ≤ 1 := by
  cases call with
  | openWriter v sbufs =>
    simp only [ContainerState.step]
    split
    · rename_i w imf1 hok
      obtain ⟨h1, h2, h3, h4, h5⟩ := writer_ok_inv checkW v s.imf imf1 sbufs w hok
      simp only [ContainerState.openWriters, ContainerState.openReaders] at *
      simp only [List.countP_cons, h3, if_true]
      omega
    · exact ⟨hw, hr, hs⟩
  | openReader v dbufs =>
    simp only [ContainerState.step]
    split
    · rename_i r imf1 hok
      obtain ⟨h1, h2, h3, h4, h5⟩ := reader_ok_inv checkR v s.imf imf1 dbufs r hok
      simp only [ContainerState.openWriters, ContainerState.openReaders] at *
      simp only [List.countP_cons, h3, if_true]
      omega
    · exact ⟨hw, hr, hs⟩
  | closeWriter i =>
    simp only [ContainerState.step]
    split
    · exact ⟨hw, hr, hs⟩
    · rename_i w hget
      split
      · rename_i w1 imf1 hok
        unfold CompressedVectorWriterImpl.close at hok
        split_ifs at hok with hopen
        cases hok
        replace hopen : w.isOpen_ = true := by simpa using hopen
        have := countP_set_drop (fun w : CompressedVectorWriterImpl => w.isOpen_) s.writers i w
          { w with isOpen_ := false } hget hopen rfl
        simp only [ContainerState.openWriters, ContainerState.openReaders] at *
        omega
      · exact ⟨hw, hr, hs⟩
  | closeReader i =>
    simp only [ContainerState.step]
    split
    · exact ⟨hw, hr, hs⟩
    · rename_i r hget
      unfold CompressedVectorReaderImpl.close
      by_cases hopen : r.isOpen_ = true
      · have := countP_set_drop (fun r : CompressedVectorReaderImpl => r.isOpen_) s.readers i r
          { r with isOpen_ := false } hget hopen rfl
        simp only [ContainerState.openWriters, ContainerState.openReaders, hopen] at *
        simp only [Bool.not_true, Bool.false_eq_true, if_false]
        omega
      · simp only [Bool.not_eq_true] at hopen
        have hset : s.readers.set i r = s.readers := set_get_self s.readers i r hget
        simp only [hopen, Bool.not_false, if_true, hset]
        exact ⟨hw, hr, hs⟩

/-- C7: on a container that starts with both counters at zero and no session, after every
sequence of `writer()`/`reader()` opens (a returned session taking one slot) and closes, the
writer counter is the number of open write sessions, the reader counter the number of open
read sessions, and there is at most one open session in all: never two writers, never two
readers, never a writer with a reader. -/
theorem at_most_one_session
    (checkW checkR : CompressedVectorNodeImpl → List SourceDestBuffer → Except ErrorCode Unit)
    (imf : ImageFileImpl) (hw : imf.writerCount = 0) (hr : imf.readerCount = 0)
    (calls : List SessionCall) :
    (ContainerState.run checkW checkR ⟨imf, [], []⟩ calls).imf.writerCount +
      (ContainerState.run checkW checkR ⟨imf, [], []⟩ calls).imf.readerCount ≤ 1 ∧
    (ContainerState.run checkW checkR ⟨imf, [], []⟩ calls).openWriters +
      (ContainerState.run checkW checkR ⟨imf, [], []⟩ calls).openReaders ≤ 1 ∧
    (ContainerState.run checkW checkR ⟨imf, [], []⟩ calls).imf.writerCount =
      (ContainerState.run checkW checkR ⟨imf, [], []⟩ calls).openWriters ∧
    (ContainerState.run checkW checkR ⟨imf, [], []⟩ calls).imf.readerCount =
      (ContainerState.run checkW checkR ⟨imf, [], []⟩ calls).openReaders := by
  have key : ∀ (calls : List SessionCall) (s : ContainerState),
      s.imf.writerCount = s.openWriters → s.imf.readerCount = s.openReaders →
      s.openWriters + s.openReaders ≤ 1 →
      (ContainerState.run checkW checkR s calls).imf.writerCount =
        (ContainerState.run checkW checkR s calls).openWriters ∧
      (ContainerState.run checkW checkR s calls).imf.readerCount =
        (ContainerState.run checkW checkR s calls).openReaders ∧
      (ContainerState.run checkW checkR s calls).openWriters +
        (ContainerState.run checkW checkR s calls).openReaders ≤ 1 := by
    intro calls
    induction calls with
    | nil => intro s h1 h2 h3; exact ⟨h1, h2, h3⟩
    | cons call rest ih =>
      intro s h1 h2 h3
      obtain ⟨g1, g2, g3⟩ := step_keeps_slots checkW checkR s call h1 h2 h3
      exact ih _ g1 g2 g3
  obtain ⟨g1, g2, g3⟩ := key calls ⟨imf, [], []⟩
    (by simp [ContainerState.openWriters, hw]) (by simp [ContainerState.openReaders, hr])
    (by simp [ContainerState.openWriters, ContainerState.openReaders])
  refine ⟨?_, g3, g1, g2⟩
  omega

/-- On `scanFile`: a writer is opened, a second writer and a reader are refused, the writer is
closed, a reader is opened; one reader is open at the end and the bound holds. -/
theorem at_most_one_session_witness :
    (scanFile.writerCount = 0 ∧ scanFile.readerCount = 0) ∧
    (ContainerState.run acceptBuffers acceptBuffers ⟨scanFile, [], []⟩
      [.openWriter pointsVector [bufX], .openWriter pointsVector [bufX],
        .openReader pointsVector [bufX], .closeWriter 0,
        .openReader pointsVector [bufX]]).openReaders = 1 ∧
    (ContainerState.run acceptBuffers acceptBuffers ⟨scanFile, [], []⟩
      [.openWriter pointsVector [bufX], .openWriter pointsVector [bufX],
        .openReader pointsVector [bufX], .closeWriter 0,
        .openReader pointsVector [bufX]]).imf.writerCount +
    (ContainerState.run acceptBuffers acceptBuffers ⟨scanFile, [], []⟩
      [.openWriter pointsVector [bufX], .openWriter pointsVector [bufX],
        .openReader pointsVector [bufX], .closeWriter 0,
        .openReader pointsVector [bufX]]).imf.readerCount ≤ 1 :=
  ⟨⟨rfl, rfl⟩, rfl,
    (at_most_one_session acceptBuffers acceptBuffers scanFile rfl rfl
      [.openWriter pointsVector [bufX], .openWriter pointsVector [bufX],
        .openReader pointsVector [bufX], .closeWriter 0,
        .openReader pointsVector [bufX]]).1⟩

/-! ### Type equivalence -/

/-- C11: `isTypeEquivalent` returns true exactly when the argument is a CompressedVector, the
record counts are equal, the prototype of the vector reports the prototype of the argument as
type-equivalent and the codecs of the vector reports the codecs of the argument as
type-equivalent; it returns false, whatever the prototypes and codecs, when the node type or
the record count differs; and when both slots of the vector are set and both calls return,
it returns their conjunction. -/
theorem isTypeEquivalent_iff (f : NodeImpl → Option NodeImpl → Option Bool)
    (v : CompressedVectorNodeImpl) (n : NodeImplSharedPtr) :
    (v.isTypeEquivalent f n = some true ↔
      ∃ cvi p c, n = .compressedVector cvi ∧ v.recordCount_ = cvi.recordCount_ ∧
        v.prototype_ = some p ∧ f p cvi.prototype_ = some true ∧
        v.codecs_ = some c ∧ f c cvi.codecs_ = some true) ∧
    (n.type ≠ .TypeCompressedVector → v.isTypeEquivalent f n = some false) ∧
    (∀ cvi, n = .compressedVector cvi → v.recordCount_ ≠ cvi.recordCount_ →
      v.isTypeEquivalent f n = some false) ∧
    (∀ cvi p c b1 b2, n = .compressedVector cvi → v.recordCount_ = cvi.recordCount_ →
      v.prototype_ = some p → v.codecs_ = some c →
      f p cvi.prototype_ = some b1 → f c cvi.codecs_ = some b2 →
      v.isTypeEquivalent f n = some (b1 && b2)) := by
  refine ⟨?_, ?_, ?_, ?_⟩
  · cases n with
    | other ni h => simp [isTypeEquivalent]
    | compressedVector cvi =>
      simp only [isTypeEquivalent, NodeImplSharedPtr.compressedVector.injEq]
      by_cases hr : v.recordCount_ = cvi.recordCount_
      · cases hp : v.prototype_ with
        | none => simp [hr]
        | some p =>
          cases hfp : f p cvi.prototype_ with
          | none => simp [hr, hfp]
          | some b1 =>
            cases b1 with
            | false => simp [hr, hfp]
            | true =>
              cases hc : v.codecs_ with
              | none => simp [hr, hfp]
              | some c =>
                cases hfc : f c cvi.codecs_ with
                | none => simp [hr, hfp, hfc]
                | some b2 => cases b2 <;> simp [hr, hfp, hfc]
      · simp only [bne_iff_ne, ne_eq, hr, not_false_eq_true, if_true]
        constructor
        · intro h; cases h
        · rintro ⟨cvi', p, c, rfl, h, _⟩
          exact absurd h hr
  · intro h
    cases n with
    | other ni hn => rfl
    | compressedVector cvi => exact absurd rfl h
  · rintro cvi rfl hr
    simp [isTypeEquivalent, hr]
  · rintro cvi p c b1 b2 rfl hr hp hc h1 h2
    cases b1 <;> cases b2 <;> simp [isTypeEquivalent, hr, hp, hc, h1, h2]

/-- The vector `pointsVector` against itself, against a vector with another record count and
against a node of another kind. -/
theorem isTypeEquivalent_iff_witness :
    pointsVector.isTypeEquivalent kindEquivalent (.compressedVector pointsVector) = some true ∧
    pointsVector.isTypeEquivalent kindEquivalent (.compressedVector cloudVector) = some false ∧
    pointsVector.isTypeEquivalent kindEquivalent (.other fieldX (by decide)) = some false :=
  ⟨(isTypeEquivalent_iff kindEquivalent pointsVector (.compressedVector pointsVector)).1.2
      ⟨pointsVector, pointProto, emptyCodecs, rfl, rfl, rfl, rfl, rfl, rfl⟩,
    (isTypeEquivalent_iff kindEquivalent pointsVector (.compressedVector cloudVector)).2.2.1
      cloudVector rfl (by decide),
    (isTypeEquivalent_iff kindEquivalent pointsVector (.other fieldX (by decide))).2.1
      (by decide)⟩

/-- Where prototype and codecs are set on both sides and the equivalence of the other node
classes is reflexive and symmetric, `isTypeEquivalent` is reflexive and symmetric. -/
theorem isTypeEquivalent_refl_symm_of_set (f : NodeImpl → Option NodeImpl → Option Bool)
    (hrefl : ∀ p, f p (some p) = some true) (hsymm : ∀ p q, f p (some q) = f q (some p))
    (a b : CompressedVectorNodeImpl) (pa ca pb cb : NodeImpl)
    (hpa : a.prototype_ = some pa) (hca : a.codecs_ = some ca)
    (hpb : b.prototype_ = some pb) (hcb : b.codecs_ = some cb) :
    a.isTypeEquivalent f (.compressedVector a) = some true ∧
    a.isTypeEquivalent f (.compressedVector b) = b.isTypeEquivalent f (.compressedVector a) := by
  constructor
  · simp [isTypeEquivalent, hpa, hca, hrefl]
  · simp only [isTypeEquivalent, hpa, hca, hpb, hcb, hsymm pb pa, hsymm cb ca]
    by_cases hr : a.recordCount_ = b.recordCount_
    · simp [hr]
    · have hr' : ¬ b.recordCount_ = a.recordCount_ := fun h => hr h.symm
      simp [hr, hr']

/-- C12: reflexivity of `isTypeEquivalent` at a vector with no prototype. The equivalence
`kindEquivalent` of the other node classes is reflexive and symmetric, yet for `freshVector`
the call `a.isTypeEquivalent(a)` goes through the null `prototype_` and has no result; it does
not return true. -/
theorem isTypeEquivalent_not_reflexive :
    (∀ p, kindEquivalent p (some p) = some true) ∧
    (∀ p q, kindEquivalent p (some q) = kindEquivalent q (some p)) ∧
    freshVector.isTypeEquivalent kindEquivalent (.compressedVector freshVector) = none ∧
    freshVector.isTypeEquivalent kindEquivalent (.compressedVector freshVector) ≠ some true := by
  refine ⟨?_, ?_, rfl, ?_⟩
  · intro p
    simp [kindEquivalent]
  · intro p q
    simp only [kindEquivalent, Option.some.injEq]
    by_cases h : p.type = q.type
    · simp [h]
    · have h' : ¬ q.type = p.type := fun e => h e.symm
      simp [h, h']
  · simp [isTypeEquivalent, freshVector]

/-! ### Attachment -/

mutual
/-- After `setAttachedRecursive()` every node of the subtree is attached. -/
theorem subtree_attached_of_marked :
    ∀ (n m : NodeImpl), m ∈ (NodeImpl.setAttachedRecursive n).subtree → m.isAttached = true
  | .mk t nm a d p cs, m, h => by
    simp only [NodeImpl.setAttachedRecursive, NodeImpl.subtree, List.mem_cons] at h
    rcases h with h | h
    · subst h
      rfl
    · exact subtreeChildren_attached_of_marked cs m h
/-- After `setAttachedRecursive()` every node of the subtrees of the children is attached. -/
theorem subtreeChildren_attached_of_marked :
    ∀ (cs : List NodeImpl) (m : NodeImpl),
      m ∈ NodeImpl.subtreeChildren (NodeImpl.setAttachedChildren cs) → m.isAttached = true
  | [], m, h => by
    simp [NodeImpl.setAttachedChildren, NodeImpl.subtreeChildren] at h
  | c :: cs, m, h => by
    simp only [NodeImpl.setAttachedChildren, NodeImpl.subtreeChildren, List.mem_append] at h
    rcases h with h | h
    · exact subtree_attached_of_marked c m h
    · exact subtreeChildren_attached_of_marked cs m h
end

mutual
/-- The nodes of the marked subtree are the nodes of the subtree, each one marked. -/
theorem subtree_marked_eq_map :
    ∀ (n : NodeImpl),
      (NodeImpl.setAttachedRecursive n).subtree = n.subtree.map NodeImpl.setAttachedRecursive
  | .mk t nm a d p cs => by
    simp only [NodeImpl.setAttachedRecursive, NodeImpl.subtree, List.map_cons,
      subtreeChildren_marked_eq_map cs]
/-- The nodes below marked children are the nodes below the children, each one marked. -/
theorem subtreeChildren_marked_eq_map :
    ∀ (cs : List NodeImpl),
      NodeImpl.subtreeChildren (NodeImpl.setAttachedChildren cs) =
        (NodeImpl.subtreeChildren cs).map NodeImpl.setAttachedRecursive
  | [] => by
    simp [NodeImpl.setAttachedChildren, NodeImpl.subtreeChildren]
  | c :: cs => by
    simp only [NodeImpl.setAttachedChildren, NodeImpl.subtreeChildren, List.map_append,
      subtree_marked_eq_map c, subtreeChildren_marked_eq_map cs]
end

mutual
/-- Marking a marked subtree changes nothing. -/
theorem setAttachedRecursive_idem :
    ∀ (n : NodeImpl),
      NodeImpl.setAttachedRecursive (NodeImpl.setAttachedRecursive n) =
        NodeImpl.setAttachedRecursive n
  | .mk t nm a d p cs => by
    simp only [NodeImpl.setAttachedRecursive, setAttachedChildren_idem cs]
/-- Marking marked children changes nothing. -/
theorem setAttachedChildren_idem :
    ∀ (cs : List NodeImpl),
      NodeImpl.setAttachedChildren (NodeImpl.setAttachedChildren cs) =
        NodeImpl.setAttachedChildren cs
  | [] => by
    simp [NodeImpl.setAttachedChildren]
  | c :: cs => by
    simp only [NodeImpl.setAttachedChildren, setAttachedRecursive_idem c,
      setAttachedChildren_idem cs]
end

/-- The marking of a node keeps its kind, name, container and parent. -/
theorem setAttachedRecursive_header (n : NodeImpl) :
    (NodeImpl.setAttachedRecursive n).type = n.type ∧
    (NodeImpl.setAttachedRecursive n).elementName = n.elementName ∧
    (NodeImpl.setAttachedRecursive n).destImageFile = n.destImageFile ∧
    (NodeImpl.setAttachedRecursive n).parent = n.parent := by
  cases n
  exact ⟨rfl, rfl, rfl, rfl⟩

/-- The fields of the vector after `setAttachedRecursive()`. -/
theorem setAttachedRecursive_fields (v : CompressedVectorNodeImpl) :
    v.setAttachedRecursive.isAttached_ = true ∧
    v.setAttachedRecursive.prototype_ = v.prototype_.map NodeImpl.setAttachedRecursive ∧
    v.setAttachedRecursive.codecs_ = v.codecs_.map NodeImpl.setAttachedRecursive ∧
    v.setAttachedRecursive.recordCount_ = v.recordCount_ ∧
    v.setAttachedRecursive.destImageFile_ = v.destImageFile_ := by
  unfold CompressedVectorNodeImpl.setAttachedRecursive
  cases hp : v.prototype_ <;> cases hc : v.codecs_ <;> simp [hp, hc]

/-- C13: after `setAttachedRecursive()` the vector is attached; a prototype that is set is
replaced by its marked subtree, every node of which is attached, and so is a codecs that is
set; the marked subtree has the nodes of the old one, each with its flag set and its kind,
name, container and parent kept; an unset prototype or codecs stays unset and the rest is
marked all the same. -/
theorem setAttachedRecursive_marks (v : CompressedVectorNodeImpl) :
    v.setAttachedRecursive.isAttached_ = true ∧
    v.setAttachedRecursive.prototype_ = v.prototype_.map NodeImpl.setAttachedRecursive ∧
    v.setAttachedRecursive.codecs_ = v.codecs_.map NodeImpl.setAttachedRecursive ∧
    (∀ p, v.setAttachedRecursive.prototype_ = some p → ∀ m ∈ p.subtree, m.isAttached = true) ∧
    (∀ c, v.setAttachedRecursive.codecs_ = some c → ∀ m ∈ c.subtree, m.isAttached = true) ∧
    (∀ n : NodeImpl, (NodeImpl.setAttachedRecursive n).subtree =
        n.subtree.map NodeImpl.setAttachedRecursive ∧
      (NodeImpl.setAttachedRecursive n).type = n.type ∧
      (NodeImpl.setAttachedRecursive n).elementName = n.elementName ∧
      (NodeImpl.setAttachedRecursive n).destImageFile = n.destImageFile ∧
      (NodeImpl.setAttachedRecursive n).parent = n.parent) := by
  obtain ⟨h1, h2, h3, _, _⟩ := setAttachedRecursive_fields v
  refine ⟨h1, h2, h3, ?_, ?_, fun n => ⟨subtree_marked_eq_map n, setAttachedRecursive_header n⟩⟩
  · intro p hp m hm
    rw [h2] at hp
    cases hq : v.prototype_ with
    | none => rw [hq] at hp; cases hp
    | some q =>
      rw [hq] at hp
      simp only [Option.map_some', Option.some.injEq] at hp
      subst hp
      exact subtree_attached_of_marked q m hm
  · intro c hc m hm
    rw [h3] at hc
    cases hq : v.codecs_ with
    | none => rw [hq] at hc; cases hc
    | some q =>
      rw [hq] at hc
      simp only [Option.map_some', Option.some.injEq] at hc
      subst hc
      exact subtree_attached_of_marked q m hm

/-- The vector with only a prototype set: after the call the vector, the structure node and its
field are attached and the codecs is still unset. -/
theorem setAttachedRecursive_marks_witness :
    (SetCall.apply freshVector (.setPrototype pointProto)).setAttachedRecursive.isAttached_
      = true ∧
    (SetCall.apply freshVector (.setPrototype pointProto)).setAttachedRecursive.codecs_
      = none ∧
    (∀ m ∈ (NodeImpl.setAttachedRecursive pointProto).subtree, m.isAttached = true) ∧
    (NodeImpl.setAttachedRecursive pointProto).subtree.map NodeImpl.isAttached
      = [true, true] :=
  ⟨(setAttachedRecursive_marks (SetCall.apply freshVector (.setPrototype pointProto))).1,
    rfl,
    (setAttachedRecursive_marks
      (SetCall.apply freshVector (.setPrototype pointProto))).2.2.2.1
      (NodeImpl.setAttachedRecursive pointProto) rfl,
    rfl⟩

/-- Running a concatenation of calls is running the two parts in turn. -/
theorem nodeCalls_run_append (calls more : List NodeCall) (v : CompressedVectorNodeImpl) :
    NodeCall.run v (calls ++ more) = NodeCall.run (NodeCall.run v calls) more := by
  induction calls generalizing v with
  | nil => rfl
  | cons call rest ih => exact ih _

/-- The setters leave the attached flag and the record count of the vector alone. -/
theorem setCalls_apply_frame (v : CompressedVectorNodeImpl) (call : SetCall) :
    (SetCall.apply v call).isAttached_ = v.isAttached_ ∧
    (SetCall.apply v call).recordCount_ = v.recordCount_ := by
  cases call with
  | setPrototype p =>
    simp only [SetCall.apply, CompressedVectorNodeImpl.setPrototype]
    split_ifs <;> exact ⟨rfl, rfl⟩
  | setCodecs c =>
    simp only [SetCall.apply, CompressedVectorNodeImpl.setCodecs]
    split_ifs <;> exact ⟨rfl, rfl⟩

/-- An attached vector stays attached under every call. -/
theorem nodeCalls_apply_attached (v : CompressedVectorNodeImpl) (call : NodeCall)
    (h : v.isAttached_ = true) : (NodeCall.apply v call).isAttached_ = true := by
  cases call with
  | setPrototype p => exact (setCalls_apply_frame v _).1.trans h
  | setCodecs c => exact (setCalls_apply_frame v _).1.trans h
  | setAttachedRecursive => exact (setAttachedRecursive_fields v).1

/-- An attached vector stays attached under every sequence of calls. -/
theorem nodeCalls_run_attached (calls : List NodeCall) (v : CompressedVectorNodeImpl)
    (h : v.isAttached_ = true) : (NodeCall.run v calls).isAttached_ = true := by
  induction calls generalizing v with
  | nil => exact h
  | cons call rest ih => exact ih _ (nodeCalls_apply_attached v call h)

/-- A vector that starts unattached and ends attached has seen a `setAttachedRecursive`. -/
theorem nodeCalls_attached_split (calls : List NodeCall) (v : CompressedVectorNodeImpl)
    (h0 : v.isAttached_ = false) (h : (NodeCall.run v calls).isAttached_ = true) :
    ∃ before after, calls = before ++ NodeCall.setAttachedRecursive :: after := by
  induction calls generalizing v with
  | nil =>
    simp only [NodeCall.run] at h
    rw [h0] at h
    cases h
  | cons call rest ih =>
    cases call with
    | setAttachedRecursive => exact ⟨[], rest, rfl⟩
    | setPrototype p =>
      obtain ⟨b, a, hba⟩ := ih (NodeCall.apply v (.setPrototype p))
        ((setCalls_apply_frame v _).1.trans h0) h
      exact ⟨.setPrototype p :: b, a, by rw [hba]; rfl⟩
    | setCodecs c =>
      obtain ⟨b, a, hba⟩ := ih (NodeCall.apply v (.setCodecs c))
        ((setCalls_apply_frame v _).1.trans h0) h
      exact ⟨.setCodecs c :: b, a, by rw [hba]; rfl⟩

/-- A marked prototype that is set survives every sequence of calls. -/
theorem nodeCalls_run_marked_prototype (calls : List NodeCall) (v : CompressedVectorNodeImpl)
    (p : NodeImpl) (h : v.prototype_ = some (NodeImpl.setAttachedRecursive p)) :
    (NodeCall.run v calls).prototype_ = some (NodeImpl.setAttachedRecursive p) := by
  induction calls generalizing v with
  | nil => exact h
  | cons call rest ih =>
    apply ih
    cases call with
    | setPrototype q => exact setCalls_apply_prototype_stable v _ _ h
    | setCodecs c => exact setCalls_apply_prototype_stable v _ _ h
    | setAttachedRecursive =>
      simp only [NodeCall.apply]
      rw [(setAttachedRecursive_fields v).2.1, h]
      simp only [Option.map_some', setAttachedRecursive_idem]

/-- A marked codecs that is set survives every sequence of calls. -/
theorem nodeCalls_run_marked_codecs (calls : List NodeCall) (v : CompressedVectorNodeImpl)
    (c : NodeImpl) (h : v.codecs_ = some (NodeImpl.setAttachedRecursive c)) :
    (NodeCall.run v calls).codecs_ = some (NodeImpl.setAttachedRecursive c) := by
  induction calls generalizing v with
  | nil => exact h
  | cons call rest ih =>
    apply ih
    cases call with
    | setPrototype q => exact setCalls_apply_codecs_stable v _ _ h
    | setCodecs q => exact setCalls_apply_codecs_stable v _ _ h
    | setAttachedRecursive =>
      simp only [NodeCall.apply]
      rw [(setAttachedRecursive_fields v).2.2.1, h]
      simp only [Option.map_some', setAttachedRecursive_idem]

/-- C14, as stated, fails: on the fresh vector of container 7, `setAttachedRecursive()` and
then `setPrototype(pointProto)` leave the vector attached with a prototype whose root is not
attached. -/
theorem attached_after_set_counterexample :
    CompressedVectorNodeImpl.new 7 scanFile = .ok freshVector ∧
    ¬ ((NodeCall.run freshVector [.setAttachedRecursive, .setPrototype pointProto]).isAttached_
        = true →
      ∀ p, (NodeCall.run freshVector [.setAttachedRecursive, .setPrototype pointProto]).prototype_
        = some p → ∀ m ∈ p.subtree, m.isAttached = true) := by
  refine ⟨rfl, fun h => ?_⟩
  have hm : pointProto ∈ pointProto.subtree := by
    simp [pointProto, NodeImpl.subtree]
  have := h rfl pointProto rfl pointProto hm
  simp [pointProto, NodeImpl.isAttached] at this

/-- C14, amended: in every state reached from a freshly constructed vector by
`setPrototype`, `setCodecs` and `setAttachedRecursive` calls, if the vector is attached then a
`setAttachedRecursive` call has taken place, and for each such call a prototype or codecs that
was set before it is, in the state reached, the marked subtree, every node of which is
attached; a setter call stores its argument as passed and leaves the attached flag of the
vector alone. -/
theorem attached_invariant (destId : Nat) (imf : ImageFileImpl)
    (v0 : CompressedVectorNodeImpl) (h0 : CompressedVectorNodeImpl.new destId imf = .ok v0)
    (calls : List NodeCall) (ha : (NodeCall.run v0 calls).isAttached_ = true) :
    (∃ before after, calls = before ++ NodeCall.setAttachedRecursive :: after) ∧
    (∀ before after, calls = before ++ NodeCall.setAttachedRecursive :: after →
      (∀ p, (NodeCall.run v0 before).prototype_ = some p →
        (NodeCall.run v0 calls).prototype_ = some (NodeImpl.setAttachedRecursive p) ∧
        ∀ m ∈ (NodeImpl.setAttachedRecursive p).subtree, m.isAttached = true) ∧
      (∀ c, (NodeCall.run v0 before).codecs_ = some c →
        (NodeCall.run v0 calls).codecs_ = some (NodeImpl.setAttachedRecursive c) ∧
        ∀ m ∈ (NodeImpl.setAttachedRecursive c).subtree, m.isAttached = true)) ∧
    (∀ (v w : CompressedVectorNodeImpl) (n : NodeImpl),
      (v.setPrototype n = .ok w → w.prototype_ = some n ∧ w.isAttached_ = v.isAttached_) ∧
      (v.setCodecs n = .ok w → w.codecs_ = some n ∧ w.isAttached_ = v.isAttached_)) := by
  have hfresh : v0.isAttached_ = false := by
    unfold CompressedVectorNodeImpl.new at h0
    split at h0
    · cases h0
    · cases h0
      rfl
  refine ⟨nodeCalls_attached_split calls v0 hfresh ha, ?_, ?_⟩
  · intro before after hsplit
    have hrun : NodeCall.run v0 calls =
        NodeCall.run (NodeCall.run v0 before).setAttachedRecursive after := by
      rw [hsplit, nodeCalls_run_append]
      rfl
    constructor
    · intro p hp
      refine ⟨?_, subtree_attached_of_marked p⟩
      rw [hrun]
      apply nodeCalls_run_marked_prototype
      rw [(setAttachedRecursive_fields _).2.1, hp]
      rfl
    · intro c hc
      refine ⟨?_, subtree_attached_of_marked c⟩
      rw [hrun]
      apply nodeCalls_run_marked_codecs
      rw [(setAttachedRecursive_fields _).2.2.1, hc]
      rfl
  · intro v w n
    constructor
    · intro h
      unfold CompressedVectorNodeImpl.setPrototype at h
      split_ifs at h
      cases h
      exact ⟨rfl, rfl⟩
    · intro h
      unfold CompressedVectorNodeImpl.setCodecs at h
      split_ifs at h
      cases h
      exact ⟨rfl, rfl⟩

/-- On the fresh vector: the prototype is set, the vector is attached, the codecs is set
afterwards. The prototype is the marked subtree in the end. -/
theorem attached_invariant_witness :
    (NodeCall.run freshVector [.setPrototype pointProto, .setAttachedRecursive,
      .setCodecs emptyCodecs]).isAttached_ = true ∧
    (NodeCall.run freshVector [.setPrototype pointProto, .setAttachedRecursive,
      .setCodecs emptyCodecs]).prototype_ = some (NodeImpl.setAttachedRecursive pointProto) ∧
    (∀ m ∈ (NodeImpl.setAttachedRecursive pointProto).subtree, m.isAttached = true) ∧
    (NodeCall.run freshVector [.setPrototype pointProto, .setAttachedRecursive,
      .setCodecs emptyCodecs]).codecs_ = some emptyCodecs ∧
    emptyCodecs.isAttached = false :=
  ⟨rfl,
    (((attached_invariant 7 scanFile freshVector rfl [.setPrototype pointProto,
      .setAttachedRecursive, .setCodecs emptyCodecs] rfl).2.1 [.setPrototype pointProto]
      [.setCodecs emptyCodecs] rfl).1 pointProto rfl).1,
    (((attached_invariant 7 scanFile freshVector rfl [.setPrototype pointProto,
      .setAttachedRecursive, .setCodecs emptyCodecs] rfl).2.1 [.setPrototype pointProto]
      [.setCodecs emptyCodecs] rfl).1 pointProto rfl).2,
    rfl, rfl⟩

/-! ### What `setPrototype` does not check -/

/-- C15: `setPrototype` at a prototype with a Blob and a CompressedVector below its root. The
fresh vector of container 7 accepts `blobProto`, a root node of the same container, and
stores it, although its subtree holds a Blob node and a CompressedVector node. -/
theorem setPrototype_accepts_blob :
    freshVector.setPrototype blobProto
      = .ok { freshVector with prototype_ := some blobProto } ∧
    (∃ m ∈ blobProto.subtree, m.type = .TypeBlob) ∧
    (∃ m ∈ blobProto.subtree, m.type = .TypeCompressedVector) := by
  refine ⟨rfl, ⟨.mk .TypeBlob "image" false 7 (some 3) [], ?_, rfl⟩,
    ⟨.mk .TypeCompressedVector "inner" false 7 (some 3) [], ?_, rfl⟩⟩
  · simp [blobProto, NodeImpl.subtree, NodeImpl.subtreeChildren]
  · simp [blobProto, NodeImpl.subtree, NodeImpl.subtreeChildren]

/-- C16, as stated, fails: `freshVector` and `normalsVector` are two distinct vectors of
container 7 and `setPrototype(pointProto)` succeeds on both. -/
theorem shared_prototype_counterexample :
    freshVector ≠ normalsVector ∧
    freshVector.destImageFile_ = normalsVector.destImageFile_ ∧
    freshVector.setPrototype pointProto
      = .ok { freshVector with prototype_ := some pointProto } ∧
    normalsVector.setPrototype pointProto
      = .ok { normalsVector with prototype_ := some pointProto } := by
  refine ⟨fun h => ?_, rfl, rfl, rfl⟩
  have hn := congrArg CompressedVectorNodeImpl.elementName_ h
  simp [freshVector, normalsVector] at hn

/-- C16, amended: `setPrototype` keeps no record of the reference on the node, so for two
vectors of the same container, when `setPrototype(p)` succeeds on the first it succeeds on the
second as well whenever the prototype of the second is unset, and both then hold `p`. -/
theorem setPrototype_shared (v1 v2 : CompressedVectorNodeImpl) (p : NodeImpl)
    (hd : v1.destImageFile_ = v2.destImageFile_) (h2 : v2.prototype_ = none)
    (w1 : CompressedVectorNodeImpl) (h1 : v1.setPrototype p = .ok w1) :
    w1.prototype_ = some p ∧
    ∃ w2, v2.setPrototype p = .ok w2 ∧ w2.prototype_ = some p := by
  unfold CompressedVectorNodeImpl.setPrototype at h1
  split_ifs at h1 with ha hb hc
  cases h1
  refine ⟨rfl, { v2 with prototype_ := some p }, ?_, rfl⟩
  rw [hd] at hc
  simp only [CompressedVectorNodeImpl.setPrototype, h2, Option.isSome_none,
    Bool.false_eq_true, if_false, hb, hc]

/-- The prototype `pointProto` set on `freshVector` is accepted by `normalsVector` too. -/
theorem setPrototype_shared_witness :
    (SetCall.apply freshVector (.setPrototype pointProto)).prototype_ = some pointProto ∧
    ∃ w2, normalsVector.setPrototype pointProto = .ok w2 ∧ w2.prototype_ = some pointProto :=
  setPrototype_shared freshVector normalsVector pointProto rfl rfl
    (SetCall.apply freshVector (.setPrototype pointProto)) rfl

/-! ### `childCount`, `isDefined`, `checkLeavesInSet` -/

/-- The record count is the same after every call. -/
theorem nodeCalls_apply_recordCount (v : CompressedVectorNodeImpl) (call : NodeCall) :
    (NodeCall.apply v call).recordCount_ = v.recordCount_ := by
  cases call with
  | setPrototype p => exact (setCalls_apply_frame v _).2
  | setCodecs c => exact (setCalls_apply_frame v _).2
  | setAttachedRecursive => exact (setAttachedRecursive_fields v).2.2.2.1

/-- The record count is the same after every sequence of calls. -/
theorem nodeCalls_run_recordCount (calls : List NodeCall) (v : CompressedVectorNodeImpl) :
    (NodeCall.run v calls).recordCount_ = v.recordCount_ := by
  induction calls generalizing v with
  | nil => rfl
  | cons call rest ih => exact (ih _).trans (nodeCalls_apply_recordCount v call)

/-- C17: on an open container `childCount()` returns the record count of the vector, and it
returns the same value after every sequence of `setPrototype`, `setCodecs` and
`setAttachedRecursive` calls, returning or throwing. -/
theorem childCount_recordCount (v : CompressedVectorNodeImpl) (imf : ImageFileImpl)
    (ho : imf.isOpen = true) (calls : List NodeCall) :
    v.childCount imf = .ok v.recordCount_ ∧
    (NodeCall.run v calls).childCount imf = .ok v.recordCount_ ∧
    (NodeCall.run v calls).recordCount_ = v.recordCount_ := by
  refine ⟨?_, ?_, nodeCalls_run_recordCount calls v⟩
  · simp [childCount, checkImageFileOpen, ho]
  · simp [childCount, checkImageFileOpen, ho, nodeCalls_run_recordCount calls v]

/-- The vector with three records on `scanFile`, before and after a refused `setPrototype`, a
`setAttachedRecursive` and a refused `setCodecs`. -/
theorem childCount_recordCount_witness :
    scanFile.isOpen = true ∧
    cloudVector.childCount scanFile = .ok 3 ∧
    (NodeCall.run cloudVector [.setPrototype pointProto, .setAttachedRecursive,
      .setCodecs fieldX]).childCount scanFile = .ok 3 :=
  ⟨rfl,
    (childCount_recordCount cloudVector scanFile rfl [.setPrototype pointProto,
      .setAttachedRecursive, .setCodecs fieldX]).1,
    (childCount_recordCount cloudVector scanFile rfl [.setPrototype pointProto,
      .setAttachedRecursive, .setCodecs fieldX]).2.1⟩

/-- C18: for every vector and every path, `isDefined` fails with `ErrorNotImplemented`; it
never returns a boolean. -/
theorem isDefined_notImplemented (v : CompressedVectorNodeImpl) (pathName : String) :
    v.isDefined pathName = .error .ErrorNotImplemented ∧
    ∀ b, v.isDefined pathName ≠ .ok b := by
  constructor
  · rfl
  · intro b h
    cases h

/-- C19: for every vector, every set of path names and every origin node, `checkLeavesInSet`
fails with `ErrorInternal`. -/
theorem checkLeavesInSet_internal (v : CompressedVectorNodeImpl) (pathNames : List String)
    (origin : NodeImplSharedPtr) :
    v.checkLeavesInSet pathNames origin = .error .ErrorInternal ∧
    v.checkLeavesInSet pathNames origin ≠ .ok () := by
  constructor
  · rfl
  · intro h
    cases h

/-! ### `writeXml` -/

/-- C20: when the node writers of the other classes append their text, the text `writeXml`
appends is: `indent` blanks, the opening tag with the name, `type="CompressedVector"`, the
physical offset of the binary section as `fileOffset` and the record count, a newline; the
text of the prototype, if set, written at `indent + 2` under the name `prototype`; the text of
the codecs, if set, written at `indent + 2` under the name `codecs`; `indent` blanks, the
closing tag with the same name, a newline. The name is the forced field name when one is
given and the element name of the node otherwise. -/
theorem writeXml_layout
    (nodeWriteXml : NodeImpl → ImageFileImpl → CheckedFile → Nat → Option String → CheckedFile)
    (nodeXml : NodeImpl → ImageFileImpl → Nat → Option String → String)
    (happ : ∀ n imf cf i name, (nodeWriteXml n imf cf i name).text = cf.text ++ nodeXml n imf i name)
    (self : CompressedVectorNodeImpl) (imf : ImageFileImpl) (cf : CheckedFile) (indent : Nat)
    (forcedFieldName : Option String) :
    (self.writeXml nodeWriteXml imf cf indent forcedFieldName).text =
      cf.text ++
        (space indent ++ "<" ++ forcedFieldName.getD self.elementName_ ++
          " type=\"CompressedVector\" fileOffset=\"" ++
          toString (cf.logicalToPhysical self.binarySectionLogicalStart_) ++
          "\" recordCount=\"" ++ toString self.recordCount_ ++ "\">" ++ "\n" ++
        (match self.prototype_ with
          | some p => nodeXml p imf (indent + 2) (some "prototype")
          | none => "") ++
        (match self.codecs_ with
          | some c => nodeXml c imf (indent + 2) (some "codecs")
          | none => "") ++
        space indent ++ "</" ++ forcedFieldName.getD self.elementName_ ++ ">" ++ "\n") ∧
    (space indent).data = List.replicate indent ' ' := by
  refine ⟨?_, rfl⟩
  have e1 : " type=\"CompressedVector\" fileOffset=\""
      = " type=\"CompressedVector\"" ++ " fileOffset=\"" := by decide
  have e2 : "\">\n" = "\">" ++ "\n" := by decide
  have e3 : ">\n" = ">" ++ "\n" := by decide
  have hname : (match forcedFieldName with
      | some forced => forced
      | none => self.elementName_) = forcedFieldName.getD self.elementName_ := by
    cases forcedFieldName <;> rfl
  unfold CompressedVectorNodeImpl.writeXml
  simp only [hname]
  rw [e1]
  cases hp : self.prototype_ <;> cases hc : self.codecs_ <;>
    simp only [CheckedFile.put, CheckedFile.putUInt64, CheckedFile.putInt64, happ, e2, e3,
      String.append_assoc, String.append_empty, String.empty_append]

/-- The vector with three records written at indentation 2 under its own name, the sample node
writer appending one line per node: the section at logical offset 2040 is at physical offset
2048. -/
theorem writeXml_layout_witness :
    (∀ n imf cf i name, (tagWriteXml n imf cf i name).text = cf.text ++ tagXml n imf i name) ∧
    (cloudVector.writeXml tagWriteXml scanFile xmlFile 2 none).text =
      "  <points type=\"CompressedVector\" fileOffset=\"2048\" recordCount=\"3\">\n" ++
      "    <prototype/>\n" ++
      "    <codecs/>\n" ++
      "  </points>\n" :=
  ⟨fun _ _ _ _ _ => rfl,
    (writeXml_layout tagWriteXml tagXml (fun _ _ _ _ _ => rfl) cloudVector scanFile xmlFile 2
      none).1.trans (by decide)⟩

/-! ### Error codes -/

/-- Each non-deprecated enumerator stands in `ErrorCode.all` at the position of its value. -/
theorem errorCode_all_at_value (c : ErrorCode) : ErrorCode.all.get? c.value = some c := by
  cases c <;> rfl

/-- Each deprecated enumerator stands in `DeprecatedErrorCode.all` at the position of its
value. -/
theorem deprecated_all_at_value (d : DeprecatedErrorCode) :
    DeprecatedErrorCode.all.get? d.value = some d := by
  cases d <;> rfl

/-- Each non-deprecated enumerator has a deprecated enumerator of its value whose note names
it. -/
theorem deprecated_alias_exists (c : ErrorCode) :
    ∃ d ∈ DeprecatedErrorCode.all, d.value = c.value ∧ d.replacement = c := by
  cases c <;> decide

/-- C22: every deprecated enumerator has the value of the replacement named in its note (and
is initialised with that very enumerator); every non-deprecated code has exactly one
deprecated alias, by value and by note; the non-deprecated codes are pairwise distinct and
their values are exactly the numbers 0 to 50. -/
theorem deprecated_aliases :
    (∀ d : DeprecatedErrorCode, d.value = d.replacement.value ∧ d.initializer = d.replacement) ∧
    (DeprecatedErrorCode.E57_SUCCESS.value = 0 ∧ ErrorCode.Success.value = 0 ∧
      DeprecatedErrorCode.E57_ERROR_SET_TWICE.value = 4 ∧ ErrorCode.ErrorSetTwice.value = 4 ∧
      DeprecatedErrorCode.E57_ERROR_FILE_IS_READ_ONLY.value = 15 ∧
      ErrorCode.ErrorFileReadOnly.value = 15 ∧
      DeprecatedErrorCode.E57_ERROR_LSEEK_FAILED.value = 21 ∧
      ErrorCode.ErrorSeekFailed.value = 21 ∧
      DeprecatedErrorCode.E57_ERROR_INVARIANCE_VIOLATION.value = 50 ∧
      ErrorCode.ErrorInvarianceViolation.value = 50) ∧
    (∀ c : ErrorCode, ∃! d : DeprecatedErrorCode, d.value = c.value) ∧
    (∀ c : ErrorCode, ∃! d : DeprecatedErrorCode, d.replacement = c) ∧
    (∀ c c' : ErrorCode, c.value = c'.value → c = c') ∧
    (∀ c : ErrorCode, c.value ≤ 50) ∧
    (∀ n, n ≤ 50 → ∃ c : ErrorCode, c.value = n) := by
  have hinit : ∀ d : DeprecatedErrorCode, d.initializer = d.replacement := by
    intro d
    cases d <;> rfl
  have hdinj : ∀ d d' : DeprecatedErrorCode, d.value = d'.value → d = d' := by
    intro d d' h
    have h1 := deprecated_all_at_value d
    rw [h, deprecated_all_at_value d'] at h1
    exact (Option.some.inj h1).symm
  refine ⟨fun d => ⟨by rw [← hinit d]; rfl, hinit d⟩, by decide, ?_, ?_, ?_, ?_, ?_⟩
  · intro c
    obtain ⟨d, _, hv, _⟩ := deprecated_alias_exists c
    exact ⟨d, hv, fun d' h' => hdinj d' d (h'.trans hv.symm)⟩
  · intro c
    obtain ⟨d, _, _, hr⟩ := deprecated_alias_exists c
    refine ⟨d, hr, fun d' h' => hdinj d' d ?_⟩
    show d'.initializer.value = d.initializer.value
    rw [hinit d', hinit d, h', hr]
  · intro c c' h
    have h1 := errorCode_all_at_value c
    rw [h, errorCode_all_at_value c'] at h1
    exact (Option.some.inj h1).symm
  · intro c
    cases c <;> decide
  · intro n hn
    have : ∀ m, m < 51 → ∃ c ∈ ErrorCode.all, c.value = m := by decide
    obtain ⟨c, _, hc⟩ := this n (by omega)
    exact ⟨c, hc⟩

/-- The values 50 and 0 are taken, and `ErrorSeekFailed` has exactly one alias. -/
theorem deprecated_aliases_witness :
    (∃ c : ErrorCode, c.value = 50) ∧ (∃ c : ErrorCode, c.value = 0) ∧
    (∃! d : DeprecatedErrorCode, d.value = ErrorCode.ErrorSeekFailed.value) :=
  ⟨deprecated_aliases.2.2.2.2.2.2 50 (by decide), deprecated_aliases.2.2.2.2.2.2 0 (by decide),
    deprecated_aliases.2.2.1 .ErrorSeekFailed⟩

/-! ### `reader` against `writer` -/

/-- C23: the outcome of `reader` is the same on a container open for writing and on a
read-only one: it fails with the same code or succeeds on both; `reader` never fails with
`ErrorFileReadOnly` unless the session constructor itself reports it, so its node-level
checks never do; on a writable container `writer` and `reader` fail in the same states with
the same code. -/
theorem reader_mode_independent
    (check : CompressedVectorNodeImpl → List SourceDestBuffer → Except ErrorCode Unit)
    (v : CompressedVectorNodeImpl) (imf : ImageFileImpl) (bufs : List SourceDestBuffer) :
    (∀ e, v.reader check { imf with isWriter := true } bufs = .error e ↔
      v.reader check { imf with isWriter := false } bufs = .error e) ∧
    ((∃ r, v.reader check { imf with isWriter := true } bufs = .ok r) ↔
      (∃ r, v.reader check { imf with isWriter := false } bufs = .ok r)) ∧
    (check v bufs ≠ .error .ErrorFileReadOnly →
      v.reader check imf bufs ≠ .error .ErrorFileReadOnly) ∧
    (imf.isWriter = true →
      ∀ e, v.writer check imf bufs = .error e ↔ v.reader check imf bufs = .error e) := by
  refine ⟨?_, ?_, ?_, ?_⟩
  · intro e
    simp only [reader, checkImageFileOpen, CompressedVectorReaderImpl.new]
    cases imf.isOpen <;> by_cases h1 : imf.writerCount > 0 <;>
      by_cases h2 : imf.readerCount > 0 <;> cases hb : bufs.isEmpty <;>
      cases ha : v.isAttached <;> cases hc : check v bufs <;> simp [h1, h2]
  · simp only [reader, checkImageFileOpen, CompressedVectorReaderImpl.new]
    cases imf.isOpen <;> by_cases h1 : imf.writerCount > 0 <;>
      by_cases h2 : imf.readerCount > 0 <;> cases hb : bufs.isEmpty <;>
      cases ha : v.isAttached <;> cases hc : check v bufs <;> simp [h1, h2]
  · intro hne
    simp only [reader, checkImageFileOpen, CompressedVectorReaderImpl.new]
    cases imf.isOpen <;> by_cases h1 : imf.writerCount > 0 <;>
      by_cases h2 : imf.readerCount > 0 <;> cases hb : bufs.isEmpty <;>
      cases ha : v.isAttached <;> cases hc : check v bufs <;> simp [h1, h2]
    all_goals
      intro he
      exact hne (by rw [hc, he])
  · intro hw e
    simp only [writer, reader, checkImageFileOpen, CompressedVectorWriterImpl.new,
      CompressedVectorReaderImpl.new, hw]
    cases imf.isOpen <;> by_cases h1 : imf.writerCount > 0 <;>
      by_cases h2 : imf.readerCount > 0 <;> cases hb : bufs.isEmpty <;>
      cases ha : v.isAttached <;> cases hc : check v bufs <;> simp [h1, h2]

/-- The attached vector and the unattached one on the writable container `scanFile`: `reader`
and `writer` agree, and on the read-only `archiveFile` the reader is let through. -/
theorem reader_mode_independent_witness :
    (pointsVector.reader acceptBuffers scanFile [bufX] ≠ .error .ErrorFileReadOnly) ∧
    (freshVector.writer acceptBuffers scanFile [bufX] = .error .ErrorNodeUnattached ↔
      freshVector.reader acceptBuffers scanFile [bufX] = .error .ErrorNodeUnattached) ∧
    ((∃ r, pointsVector.reader acceptBuffers { archiveFile with isWriter := true } [bufX]
        = .ok r) ↔
      (∃ r, pointsVector.reader acceptBuffers { archiveFile with isWriter := false } [bufX]
        = .ok r)) :=
  ⟨(reader_mode_independent acceptBuffers pointsVector scanFile [bufX]).2.2.1
      (by simp [acceptBuffers]),
    (reader_mode_independent acceptBuffers freshVector scanFile [bufX]).2.2.2 rfl
      .ErrorNodeUnattached,
    (reader_mode_independent acceptBuffers pointsVector archiveFile [bufX]).2.1⟩

/-- C24: on an open container `writer` fails with the code of the first violated check, in
the order writer count, reader count, empty buffer list, write mode, attachment, and goes on
to the session constructor exactly when none of the five is violated; the code is a function
of the two counters, the emptiness of the buffer list, the write mode and the attached
flag. -/
theorem writer_first_violation
    (check : CompressedVectorNodeImpl → List SourceDestBuffer → Except ErrorCode Unit)
    (v : CompressedVectorNodeImpl) (imf : ImageFileImpl) (sbufs : List SourceDestBuffer)
    (ho : imf.isOpen = true) :
    v.writer check imf sbufs =
      (match writerFirstViolation imf.writerCount imf.readerCount sbufs.isEmpty imf.isWriter
          v.isAttached with
        | some e => .error e
        | none => CompressedVectorWriterImpl.new check v imf sbufs) ∧
    (writerFirstViolation imf.writerCount imf.readerCount sbufs.isEmpty imf.isWriter
        v.isAttached = none ↔
      ¬ imf.writerCount > 0 ∧ ¬ imf.readerCount > 0 ∧ sbufs ≠ [] ∧ imf.isWriter = true ∧
        v.isAttached = true) := by
  constructor
  · simp only [writer, checkImageFileOpen, ho, writerFirstViolation, writerChecks,
      Bool.not_true, Bool.false_eq_true, if_false]
    by_cases h1 : imf.writerCount > 0
    · simp [h1, List.find?]
    · by_cases h2 : imf.readerCount > 0
      · simp [h1, h2, List.find?]
      · cases h3 : sbufs.isEmpty <;> cases h4 : imf.isWriter <;> cases h5 : v.isAttached <;>
          simp [h1, h2, List.find?]
  · simp only [writerFirstViolation, writerChecks]
    by_cases h1 : imf.writerCount > 0
    · simp [h1, List.find?]
    · by_cases h2 : imf.readerCount > 0
      · simp [h1, h2, List.find?]
      · cases hs : sbufs <;> cases h4 : imf.isWriter <;> cases h5 : v.isAttached <;>
          simp [h1, h2, List.find?]

/-- With a writer already open and a read-only container, `ErrorTooManyWriters` is what is
reported; with every check passed the session constructor is reached. -/
theorem writer_first_violation_witness :
    freshVector.writer acceptBuffers { archiveFile with writerCount := 1 } []
      = .error .ErrorTooManyWriters ∧
    pointsVector.writer acceptBuffers scanFile [bufX]
      = CompressedVectorWriterImpl.new acceptBuffers pointsVector scanFile [bufX] :=
  ⟨(writer_first_violation acceptBuffers freshVector { archiveFile with writerCount := 1 } []
      rfl).1.trans rfl,
    (writer_first_violation acceptBuffers pointsVector scanFile [bufX] rfl).1.trans rfl⟩

/-! ### Frame of the setters -/

/-- C25: a `setPrototype` call that returns changes the prototype field and nothing else, a
`setCodecs` call that returns changes the codecs field and nothing else (the other slot, the
record count, the section start, the attached flag, the name, the container and the parent
are as before); a call that throws leaves the whole object as it was; and the two calls
commute: either order gives the same object, in particular when both return. -/
theorem setters_frame (v : CompressedVectorNodeImpl) (p c : NodeImpl) :
    (∀ w, v.setPrototype p = .ok w → w = { v with prototype_ := some p }) ∧
    (∀ w, v.setCodecs c = .ok w → w = { v with codecs_ := some c }) ∧
    ((SetCall.apply v (.setPrototype p)).codecs_ = v.codecs_ ∧
      (SetCall.apply v (.setPrototype p)).recordCount_ = v.recordCount_ ∧
      (SetCall.apply v (.setPrototype p)).binarySectionLogicalStart_
        = v.binarySectionLogicalStart_ ∧
      (SetCall.apply v (.setPrototype p)).isAttached_ = v.isAttached_) ∧
    ((SetCall.apply v (.setCodecs c)).prototype_ = v.prototype_ ∧
      (SetCall.apply v (.setCodecs c)).recordCount_ = v.recordCount_ ∧
      (SetCall.apply v (.setCodecs c)).binarySectionLogicalStart_
        = v.binarySectionLogicalStart_ ∧
      (SetCall.apply v (.setCodecs c)).isAttached_ = v.isAttached_) ∧
    (∀ e, v.setPrototype p = .error e → SetCall.apply v (.setPrototype p) = v) ∧
    (∀ e, v.setCodecs c = .error e → SetCall.apply v (.setCodecs c) = v) ∧
    SetCall.apply (SetCall.apply v (.setPrototype p)) (.setCodecs c)
      = SetCall.apply (SetCall.apply v (.setCodecs c)) (.setPrototype p) ∧
    (∀ w1 w2, v.setPrototype p = .ok w1 → w1.setCodecs c = .ok w2 →
      ∃ u1, v.setCodecs c = .ok u1 ∧ u1.setPrototype p = .ok w2) ∧
    (∀ u1 u2, v.setCodecs c = .ok u1 → u1.setPrototype p = .ok u2 →
      ∃ w1, v.setPrototype p = .ok w1 ∧ w1.setCodecs c = .ok u2) := by
  refine ⟨?_, ?_, ?_, ?_, ?_, ?_, ?_, ?_, ?_⟩
  · intro w h
    unfold CompressedVectorNodeImpl.setPrototype at h
    split_ifs at h
    cases h
    rfl
  · intro w h
    unfold CompressedVectorNodeImpl.setCodecs at h
    split_ifs at h
    cases h
    rfl
  · simp only [SetCall.apply, CompressedVectorNodeImpl.setPrototype]
    split_ifs <;> exact ⟨rfl, rfl, rfl, rfl⟩
  · simp only [SetCall.apply, CompressedVectorNodeImpl.setCodecs]
    split_ifs <;> exact ⟨rfl, rfl, rfl, rfl⟩
  · intro e h
    simp only [SetCall.apply, h]
  · intro e h
    simp only [SetCall.apply, h]
  · simp only [SetCall.apply, CompressedVectorNodeImpl.setPrototype,
      CompressedVectorNodeImpl.setCodecs]
    split_ifs <;> simp_all
  · intro w1 w2 h1 h2
    unfold CompressedVectorNodeImpl.setPrototype at h1
    split_ifs at h1 with a1 a2 a3
    cases h1
    unfold CompressedVectorNodeImpl.setCodecs at h2
    split_ifs at h2 with b1 b2 b3
    cases h2
    refine ⟨{ v with codecs_ := some c }, ?_, ?_⟩
    · simp only [CompressedVectorNodeImpl.setCodecs]
      simp_all
    · simp only [CompressedVectorNodeImpl.setPrototype]
      simp_all
  · intro u1 u2 h1 h2
    unfold CompressedVectorNodeImpl.setCodecs at h1
    split_ifs at h1 with a1 a2 a3
    cases h1
    unfold CompressedVectorNodeImpl.setPrototype at h2
    split_ifs at h2 with b1 b2 b3
    cases h2
    refine ⟨{ v with prototype_ := some p }, ?_, ?_⟩
    · simp only [CompressedVectorNodeImpl.setPrototype]
      simp_all
    · simp only [CompressedVectorNodeImpl.setCodecs]
      simp_all

/-- On the fresh vector both setters return, in either order, with the same object; a second
`setPrototype` throws and leaves the object as it was. -/
theorem setters_frame_witness :
    (∃ w1 w2, freshVector.setPrototype pointProto = .ok w1 ∧
      w1.setCodecs emptyCodecs = .ok w2 ∧
      ∃ u1, freshVector.setCodecs emptyCodecs = .ok u1 ∧ u1.setPrototype pointProto = .ok w2) ∧
    SetCall.apply pointsVector (.setPrototype foreignProto) = pointsVector :=
  ⟨⟨{ freshVector with prototype_ := some pointProto },
      { freshVector with prototype_ := some pointProto, codecs_ := some emptyCodecs },
      rfl, rfl,
      (setters_frame freshVector pointProto emptyCodecs).2.2.2.2.2.2.2.1
        { freshVector with prototype_ := some pointProto }
        { freshVector with prototype_ := some pointProto, codecs_ := some emptyCodecs }
        rfl rfl⟩,
    (setters_frame pointsVector foreignProto emptyCodecs).2.2.2.2.1 .ErrorSetTwice rfl⟩

/-! ### The attached flag is never cleared -/

/-- A call that has a defined result keeps an attached vector attached. -/
theorem vectorCall_apply_attached (f : NodeImpl → Option NodeImpl → Option Bool)
    (checkW checkR : CompressedVectorNodeImpl → List SourceDestBuffer → Except ErrorCode Unit)
    (s s1 : CompressedVectorNodeImpl × ImageFileImpl) (call : VectorCall)
    (h : s.1.isAttached_ = true) (hs : VectorCall.apply f checkW checkR s call = some s1) :
    s1.1.isAttached_ = true := by
  cases call with
  | setPrototype p =>
    simp only [VectorCall.apply, Option.some.injEq] at hs
    subst hs
    exact (setCalls_apply_frame s.1 _).1.trans h
  | setCodecs c =>
    simp only [VectorCall.apply, Option.some.injEq] at hs
    subst hs
    exact (setCalls_apply_frame s.1 _).1.trans h
  | setAttachedRecursive =>
    simp only [VectorCall.apply, Option.some.injEq] at hs
    subst hs
    exact (setAttachedRecursive_fields s.1).1
  | isTypeEquivalent ni =>
    simp only [VectorCall.apply] at hs
    split at hs
    · cases hs
      exact h
    · cases hs
  | writer sbufs =>
    simp only [VectorCall.apply] at hs
    split at hs <;> cases hs <;> exact h
  | reader dbufs =>
    simp only [VectorCall.apply] at hs
    split at hs <;> cases hs <;> exact h

/-- A sequence of calls that has a defined result keeps an attached vector attached. -/
theorem vectorCall_run_attached (f : NodeImpl → Option NodeImpl → Option Bool)
    (checkW checkR : CompressedVectorNodeImpl → List SourceDestBuffer → Except ErrorCode Unit)
    (calls : List VectorCall) (s s1 : CompressedVectorNodeImpl × ImageFileImpl)
    (h : s.1.isAttached_ = true) (hs : VectorCall.run f checkW checkR s calls = some s1) :
    s1.1.isAttached_ = true := by
  induction calls generalizing s with
  | nil =>
    simp only [VectorCall.run, Option.some.injEq] at hs
    subst hs
    exact h
  | cons call rest ih =>
    simp only [VectorCall.run] at hs
    split at hs
    · rename_i s2 h2
      exact ih s2 (vectorCall_apply_attached f checkW checkR s s2 call h h2) hs
    · cases hs

/-- C26: after `setAttachedRecursive()` the vector is attached, and it is attached in every
state reached from there by `setPrototype`, `setCodecs`, `setAttachedRecursive`,
`isTypeEquivalent`, `writer` and `reader` calls, returning or throwing; a second
`setAttachedRecursive()` changes nothing. -/
theorem attached_never_cleared (f : NodeImpl → Option NodeImpl → Option Bool)
    (checkW checkR : CompressedVectorNodeImpl → List SourceDestBuffer → Except ErrorCode Unit)
    (v : CompressedVectorNodeImpl) (imf : ImageFileImpl) (calls : List VectorCall) :
    v.setAttachedRecursive.isAttached_ = true ∧
    (∀ s1, VectorCall.run f checkW checkR (v.setAttachedRecursive, imf) calls = some s1 →
      s1.1.isAttached_ = true) ∧
    v.setAttachedRecursive.setAttachedRecursive = v.setAttachedRecursive := by
  refine ⟨(setAttachedRecursive_fields v).1, fun s1 hs =>
    vectorCall_run_attached f checkW checkR calls _ s1 (setAttachedRecursive_fields v).1 hs, ?_⟩
  unfold CompressedVectorNodeImpl.setAttachedRecursive
  cases hp : v.prototype_ <;> cases hc : v.codecs_ <;>
    simp [hp, hc, setAttachedRecursive_idem]

/-- The fresh vector is attached and then taken through a refused and an accepted setter, a
type test against a Blob-free node of another kind, a refused writer and a second attach: it
is attached at the end. -/
theorem attached_never_cleared_witness :
    ∃ s1, VectorCall.run kindEquivalent acceptBuffers acceptBuffers
        (freshVector.setAttachedRecursive, scanFile)
        [.setPrototype fieldX, .setPrototype pointProto,
          .isTypeEquivalent (.other fieldX (by decide)), .writer [], .reader [bufX],
          .setAttachedRecursive] = some s1 ∧
      s1.1.isAttached_ = true :=
  ⟨_, rfl,
    (attached_never_cleared kindEquivalent acceptBuffers acceptBuffers freshVector scanFile
      [.setPrototype fieldX, .setPrototype pointProto,
        .isTypeEquivalent (.other fieldX (by decide)), .writer [], .reader [bufX],
        .setAttachedRecursive]).2.1 _ rfl⟩

/-! ### The record pipeline -/

/-- A field of `w` bits has `w` cells. -/
theorem toBitsLE_length (w n : Nat) : (toBitsLE w n).length = w := by
  induction w generalizing n with
  | zero => rfl
  | succ w ih => simp [toBitsLE, ih]

/-- A number below `2 ^ w` is read back from its `w` low bits. -/
theorem ofBitsLE_toBitsLE (w n : Nat) (h : n < 2 ^ w) : ofBitsLE (toBitsLE w n) = n := by
  induction w generalizing n with
  | zero =>
    simp only [pow_zero, Nat.lt_one_iff] at h
    subst h
    rfl
  | succ w ih =>
    have h2 : n / 2 < 2 ^ w := by
      rw [pow_succ] at h
      omega
    simp only [toBitsLE, ofBitsLE, ih (n / 2) h2]
    omega

/-- The search for the ceiling of the logarithm ends at an exponent that is large enough. -/
theorem le_two_pow_ceilLog2Loop (n fuel k : Nat) (h : n ≤ fuel + k) :
    n ≤ 2 ^ ceilLog2Loop n fuel k := by
  induction fuel generalizing k with
  | zero =>
    simp only [ceilLog2Loop]
    have := Nat.lt_two_pow k
    omega
  | succ fuel ih =>
    simp only [ceilLog2Loop]
    split_ifs with hk
    · exact hk
    · exact ih (k + 1) (by omega)

/-- The search ends at the least exponent that is large enough, when no smaller one than the
start is. -/
theorem ceilLog2Loop_le (n fuel k j : Nat) (hk : k ≤ j) (hj : n ≤ 2 ^ j) :
    ceilLog2Loop n fuel k ≤ j := by
  induction fuel generalizing k with
  | zero => exact hk
  | succ fuel ih =>
    simp only [ceilLog2Loop]
    split_ifs with h
    · exact hk
    · apply ih
      rcases Nat.lt_or_ge k j with hlt | hge
      · exact hlt
      · have : k = j := by omega
        subst this
        exact absurd hj h

/-- The value of `ceilLog2 n` is the least `k` with `n ≤ 2 ^ k`. -/
theorem ceilLog2_spec (n : Nat) :
    n ≤ 2 ^ ceilLog2 n ∧ ∀ j, n ≤ 2 ^ j → ceilLog2 n ≤ j :=
  ⟨le_two_pow_ceilLog2Loop n n 0 (by omega),
    fun j hj => ceilLog2Loop_le n n 0 j (Nat.zero_le j) hj⟩

/-- A value within the bounds of an integer field fits the bits of a record. -/
theorem offset_lt_two_pow_bits (min max v : Int) (h1 : min ≤ v) (h2 : v ≤ max) :
    (v - min).toNat < 2 ^ bitsPerRecord min max := by
  unfold bitsPerRecord
  split_ifs with h
  · subst h
    have : v = min := le_antisymm h2 h1
    subst this
    simp
  · have := (ceilLog2_spec (max - min + 1).toNat).1
    omega

/-- A field of `w` bits in front of a stream is taken off the stream as it was put on. -/
theorem take_drop_bits (w x : Nat) (rest : List Nat) :
    ¬ (toBitsLE w x ++ rest).length < w ∧
    (toBitsLE w x ++ rest).take w = toBitsLE w x ∧
    (toBitsLE w x ++ rest).drop w = rest := by
  have hl := toBitsLE_length w x
  refine ⟨?_, ?_, ?_⟩
  · rw [List.length_append, hl]
    omega
  · rw [List.take_append_of_le_length (le_of_eq hl.symm), List.take_of_length_le (le_of_eq hl)]
  · rw [List.drop_append_of_le_length (le_of_eq hl.symm), List.drop_of_length_le (le_of_eq hl)]
    rfl

/-- The decoder reads back, in front of any stream, a value that is a well-formed element of
an element type matching the field and lies within the bounds of the field. -/
theorem decodeValue_encodeValue (m : MemoryRepresentation) (t : FieldType) (v : FieldValue)
    (rest : List Nat) (hm : m.matchesField t = true) (hh : m.holds v = true)
    (hb : t.outOfBounds v = false) :
    decodeValue t (encodeValue t v ++ rest) = some (v, rest) := by
  cases t with
  | integer min max =>
    cases v with
    | integer i =>
      simp only [FieldType.outOfBounds, decide_eq_false_iff_not, not_or, not_lt] at hb
      obtain ⟨h1, h2, h3⟩ := take_drop_bits (bitsPerRecord min max) (i - min).toNat rest
      simp only [encodeValue, decodeValue, h1, if_false, h2, h3,
        ofBitsLE_toBitsLE _ _ (offset_lt_two_pow_bits min max i hb.1 hb.2)]
      congr 3
      omega
    | float p bits => cases m <;> simp [MemoryRepresentation.holds,
        MemoryRepresentation.matchesField] at hm hh
    | ustring u => cases m <;> simp [MemoryRepresentation.holds,
        MemoryRepresentation.matchesField] at hm hh
  | scaledInteger min max sc off =>
    cases v with
    | integer i =>
      simp only [FieldType.outOfBounds, decide_eq_false_iff_not, not_or, not_lt] at hb
      obtain ⟨h1, h2, h3⟩ := take_drop_bits (bitsPerRecord min max) (i - min).toNat rest
      simp only [encodeValue, decodeValue, h1, if_false, h2, h3,
        ofBitsLE_toBitsLE _ _ (offset_lt_two_pow_bits min max i hb.1 hb.2)]
      congr 3
      omega
    | float p bits => cases m <;> simp [MemoryRepresentation.holds,
        MemoryRepresentation.matchesField] at hm hh
    | ustring u => cases m <;> simp [MemoryRepresentation.holds,
        MemoryRepresentation.matchesField] at hm hh
  | float p =>
    cases p with
    | single =>
      cases m <;> simp only [MemoryRepresentation.matchesField, Bool.false_eq_true] at hm
      cases v with
      | integer i => simp [MemoryRepresentation.holds] at hh
      | ustring u => simp [MemoryRepresentation.holds] at hh
      | float q bits =>
        cases q with
        | double => simp [MemoryRepresentation.holds] at hh
        | single =>
          simp only [MemoryRepresentation.holds, decide_eq_true_eq] at hh
          obtain ⟨h1, h2, h3⟩ := take_drop_bits 32 bits rest
          simp only [encodeValue, decodeValue, h1, if_false, h2, h3,
            ofBitsLE_toBitsLE 32 bits hh]
    | double =>
      cases m <;> simp only [MemoryRepresentation.matchesField, Bool.false_eq_true] at hm
      cases v with
      | integer i => simp [MemoryRepresentation.holds] at hh
      | ustring u => simp [MemoryRepresentation.holds] at hh
      | float q bits =>
        cases q with
        | single => simp [MemoryRepresentation.holds] at hh
        | double =>
          simp only [MemoryRepresentation.holds, decide_eq_true_eq] at hh
          obtain ⟨h1, h2, h3⟩ := take_drop_bits 64 bits rest
          simp only [encodeValue, decodeValue, h1, if_false, h2, h3,
            ofBitsLE_toBitsLE 64 bits hh]
  | ustring =>
    cases m <;> simp only [MemoryRepresentation.matchesField, Bool.false_eq_true] at hm
    cases v with
    | integer i => simp [MemoryRepresentation.holds] at hh
    | float q bits => simp [MemoryRepresentation.holds] at hh
    | ustring u =>
      simp [encodeValue, decodeValue]

/-- The decoder reads a column back from its stream, whatever follows the stream. -/
theorem decodeColumn_encodeColumn (m : MemoryRepresentation) (t : FieldType)
    (hm : m.matchesField t = true) (vals : List FieldValue) (rest : List Nat)
    (hv : ∀ v ∈ vals, m.holds v = true ∧ t.outOfBounds v = false) :
    decodeColumn t vals.length (encodeColumn t vals ++ rest) = some vals := by
  induction vals with
  | nil => rfl
  | cons v vs ih =>
    have h1 := hv v (List.mem_cons_self v vs)
    have h2 := ih (fun u hu => hv u (List.mem_cons_of_mem v hu))
    simp only [List.length_cons, decodeColumn, encodeColumn, List.append_assoc,
      decodeValue_encodeValue m t v _ hm h1.1 h1.2, h2]

/-- An element of the type of the field, within its bounds and with no scaling asked for,
goes through the pipeline of the writer unchanged. -/
theorem loadElement_direct (conv : Conversions) (b : SourceDestBuffer) (t : FieldType)
    (v : FieldValue) (hm : b.elementType.matchesField t = true) (hs : b.doScaling = false)
    (hb : t.outOfBounds v = false) : loadElement conv b t v = .ok v := by
  simp [loadElement, hm, hs, hb]

/-- A column of such elements is encoded as it stands. -/
theorem loadColumn_direct (conv : Conversions) (b : SourceDestBuffer) (t : FieldType)
    (hm : b.elementType.matchesField t = true) (hs : b.doScaling = false)
    (vals : List FieldValue) (hv : ∀ v ∈ vals, t.outOfBounds v = false) :
    loadColumn conv b t vals = .ok (encodeColumn t vals) := by
  induction vals with
  | nil => rfl
  | cons v vs ih =>
    simp only [loadColumn, encodeColumn,
      loadElement_direct conv b t v hm hs (hv v (List.mem_cons_self v vs)),
      ih (fun u hu => hv u (List.mem_cons_of_mem v hu))]

/-- A decoded value that the element type of the buffer holds, with the type of the field
and no scaling asked for, is stored unchanged. -/
theorem storeElement_direct (conv : Conversions) (b : SourceDestBuffer) (t : FieldType)
    (v : FieldValue) (hm : b.elementType.matchesField t = true) (hs : b.doScaling = false)
    (hh : b.elementType.holds v = true) : storeElement conv b t v = .ok v := by
  simp [storeElement, hm, hs, hh]

/-- A column of such values is stored as it stands. -/
theorem storeColumn_direct (conv : Conversions) (b : SourceDestBuffer) (t : FieldType)
    (hm : b.elementType.matchesField t = true) (hs : b.doScaling = false)
    (vals : List FieldValue) (hv : ∀ v ∈ vals, b.elementType.holds v = true) :
    storeColumn conv b t vals = .ok vals := by
  induction vals with
  | nil => rfl
  | cons v vs ih =>
    simp only [storeColumn,
      storeElement_direct conv b t v hm hs (hv v (List.mem_cons_self v vs)),
      ih (fun u hu => hv u (List.mem_cons_of_mem v hu))]

/-- The payloads of the successive packets put end to end are the stream that was cut. -/
theorem cutPayloads_flatten (sizes cells : List Nat) :
    (cutPayloads sizes cells).flatten = cells := by
  induction sizes generalizing cells with
  | nil => simp [cutPayloads]
  | cons k ks ih => simp [cutPayloads, ih]

/-- What `BoundField.matching` says, spelt out. -/
theorem matching_unfold (n : Nat) (f : BoundField) (h : f.matching n = true) :
    f.sbuf.elementType.matchesField f.type = true ∧ f.sbuf.doScaling = false ∧
    f.array.length = f.sbuf.capacity ∧ n ≤ f.sbuf.capacity ∧
    (∀ v ∈ f.array.take n,
      f.sbuf.elementType.holds v = true ∧ f.type.outOfBounds v = false) ∧
    f.dbuf.elementType = f.sbuf.elementType ∧ f.dbuf.doScaling = false ∧
    n ≤ f.dbuf.capacity := by
  simp only [BoundField.matching, Bool.and_eq_true, Bool.not_eq_true', decide_eq_true_eq,
    List.all_eq_true] at h
  obtain ⟨⟨⟨⟨⟨⟨⟨h1, h2⟩, h3⟩, h4⟩, h5⟩, h6⟩, h7⟩, h8⟩ := h
  exact ⟨h1, h2, h3, h4, h5, h6, h7, h8⟩

/-- The bytestreams opened for bound fields: one empty stream per field. -/
theorem openStreams_bound (data : List BoundField) :
    openStreams (data.map (fun f => f.type)) (data.map (fun f => f.sbuf)) =
      data.map (fun f => { type := f.type, buffer := f.sbuf, cells := [] }) := by
  induction data with
  | nil => rfl
  | cons f fs ih => simp only [List.map_cons, openStreams, ih]

/-- Writing the first `n` elements of matching buffers into fresh bytestreams leaves in each
stream the encoded column. -/
theorem writeStreams_bound (conv : Conversions) (n : Nat) (data : List BoundField)
    (hmatch : ∀ f ∈ data, f.matching n = true) :
    writeStreams conv n
        (data.map (fun f => { type := f.type, buffer := f.sbuf, cells := [] }))
        (data.map (fun f => f.array)) =
      .ok (data.map (fun f =>
        { type := f.type, buffer := f.sbuf, cells := encodeColumn f.type (f.array.take n) })) := by
  induction data with
  | nil => rfl
  | cons f fs ih =>
    obtain ⟨h1, h2, _, _, h5, _, _, _⟩ := matching_unfold n f (hmatch f (List.mem_cons_self f fs))
    simp only [List.map_cons, writeStreams,
      loadColumn_direct conv f.sbuf f.type h1 h2 (f.array.take n) (fun v hv => (h5 v hv).2),
      ih (fun g hg => hmatch g (List.mem_cons_of_mem f hg)), List.nil_append]

/-- No matching write buffer is smaller than the number of records. -/
theorem capacity_bound (n : Nat) (data : List BoundField)
    (hmatch : ∀ f ∈ data, f.matching n = true) :
    (data.map (fun f => f.sbuf)).any (fun b => decide (b.capacity < n)) = false := by
  induction data with
  | nil => rfl
  | cons f fs ih =>
    obtain ⟨_, _, _, h4, _, _, _, _⟩ := matching_unfold n f (hmatch f (List.mem_cons_self f fs))
    simp only [List.map_cons, List.any_cons, ih (fun g hg => hmatch g (List.mem_cons_of_mem f hg)),
      Bool.or_false, decide_eq_false_iff_not, not_lt]
    exact h4

/-- Reading `n` records from the start of the section written from matching buffers gives
back, field by field, the first `n` elements of the write buffers. -/
theorem readStreams_bound (conv : Conversions) (cuts : FieldType → List Nat → List Nat)
    (n : Nat) (data : List BoundField) (hmatch : ∀ f ∈ data, f.matching n = true) :
    readStreams conv 0 n (data.map (fun f => f.type)) (data.map (fun f => f.dbuf))
        (data.map (fun f =>
          cutPayloads
            (cuts f.type (encodeColumn f.type (f.array.take n) ++
              padding f.type (encodeColumn f.type (f.array.take n))))
            (encodeColumn f.type (f.array.take n) ++
              padding f.type (encodeColumn f.type (f.array.take n))))) =
      .ok (data.map (fun f => f.array.take n)) := by
  induction data with
  | nil => rfl
  | cons f fs ih =>
    obtain ⟨h1, _, h3, h4, h5, h6, h7, _⟩ :=
      matching_unfold n f (hmatch f (List.mem_cons_self f fs))
    have hlen : (f.array.take n).length = n := by
      rw [List.length_take, h3]
      omega
    have hdec := decodeColumn_encodeColumn f.sbuf.elementType f.type h1 (f.array.take n)
      (padding f.type (encodeColumn f.type (f.array.take n))) h5
    rw [hlen] at hdec
    simp only [List.map_cons, readStreams, cutPayloads_flatten, Nat.zero_add, hdec,
      List.drop_zero,
      storeColumn_direct conv f.dbuf f.type (h6 ▸ h1) h7 (f.array.take n)
        (fun v hv => h6 ▸ (h5 v hv).1),
      ih (fun g hg => hmatch g (List.mem_cons_of_mem f hg))]

/-- C21: for every prototype and matching buffers, on an attached vector of an open writable
container with no session: `writer(B)` returns a session; writing `n` records and closing
succeed, whatever the packet-flush policy, set the record count of the vector to `n` and
release the writer slot; `reader(B')` then returns a session, and reading gives `n` records
whose fields are, buffer by buffer and in the order written, the first `n` elements of `B`:
the same integers, the same float bit patterns and the same strings. -/
theorem write_read_roundtrip
    (checkW checkR : CompressedVectorNodeImpl → List SourceDestBuffer → Except ErrorCode Unit)
    (conv : Conversions) (cuts : FieldType → List Nat → List Nat)
    (v : CompressedVectorNodeImpl) (imf : ImageFileImpl) (sectionLogicalStart : Nat)
    (data : List BoundField) (n : Nat) (hne : data ≠ [])
    (ho : imf.isOpen = true) (hwr : imf.isWriter = true) (hwc : imf.writerCount = 0)
    (hrc : imf.readerCount = 0) (ha : v.isAttached = true)
    (hcw : checkW v (data.map (fun f => f.sbuf)) = .ok ())
    (hcr : checkR { v with recordCount_ := n, binarySectionLogicalStart_ := sectionLogicalStart }
      (data.map (fun f => f.dbuf)) = .ok ())
    (hmatch : ∀ f ∈ data, f.matching n = true) :
    ∃ w imf1 s1 sec v1 w1 imf2 r imf3 r1,
      v.writer checkW imf (data.map (fun f => f.sbuf)) = .ok (w, imf1) ∧
      (WriteSession.start (data.map (fun f => f.type)) w).write conv
        (data.map (fun f => f.array)) n = .ok s1 ∧
      s1.close cuts imf1 sectionLogicalStart = .ok (sec, v1, w1, imf2) ∧
      v1.recordCount_ = n ∧ sec.recordCount = n ∧ w1.isOpen_ = false ∧
      imf2.writerCount = 0 ∧ imf2.readerCount = 0 ∧
      v1.reader checkR imf2 (data.map (fun f => f.dbuf)) = .ok (r, imf3) ∧
      (ReadSession.start (data.map (fun f => f.type)) sec r).read conv
        = .ok (n, data.map (fun f => f.array.take n), r1) := by
  have hs : (data.map (fun f => f.sbuf)).isEmpty = false := by
    cases data with
    | nil => exact absurd rfl hne
    | cons f fs => rfl
  have hd : (data.map (fun f => f.dbuf)).isEmpty = false := by
    cases data with
    | nil => exact absurd rfl hne
    | cons f fs => rfl
  have hcapd : n ≤ bufferCapacity (data.map (fun f => f.dbuf)) := by
    cases data with
    | nil => exact absurd rfl hne
    | cons f fs =>
      exact (matching_unfold n f (hmatch f (List.mem_cons_self f fs))).2.2.2.2.2.2.2
  have h1 : v.writer checkW imf (data.map (fun f => f.sbuf)) =
      .ok ({ cVector_ := v, sbufs_ := data.map (fun f => f.sbuf), isOpen_ := true },
        { imf with writerCount := imf.writerCount + 1 }) := by
    simp [writer, checkImageFileOpen, ho, hwr, hwc, hrc, ha, hs, hcw,
      CompressedVectorWriterImpl.new]
  have h2 : (WriteSession.start (data.map (fun f => f.type))
        { cVector_ := v, sbufs_ := data.map (fun f => f.sbuf), isOpen_ := true }).write conv
        (data.map (fun f => f.array)) n =
      .ok { impl := { cVector_ := v, sbufs_ := data.map (fun f => f.sbuf), isOpen_ := true },
            streams := data.map (fun f =>
              { type := f.type, buffer := f.sbuf,
                cells := encodeColumn f.type (f.array.take n) }),
            recordCount := 0 + n } := by
    simp only [WriteSession.write, WriteSession.start, Bool.not_true, Bool.false_eq_true,
      if_false, capacity_bound n data hmatch, openStreams_bound,
      writeStreams_bound conv n data hmatch]
  have h4 : ∀ (v1 : CompressedVectorNodeImpl) (imf2 : ImageFileImpl),
      v1 = { v with
        recordCount_ := Int.ofNat (0 + n)
        binarySectionLogicalStart_ := sectionLogicalStart } →
      imf2 = { imf with writerCount := imf.writerCount + 1 - 1 } →
      v1.reader checkR imf2 (data.map (fun f => f.dbuf)) =
        .ok ({ cVector_ := v1, dbufs_ := data.map (fun f => f.dbuf), isOpen_ := true },
          { imf2 with readerCount := imf2.readerCount + 1 }) := by
    intro v1 imf2 hv1 himf2
    have hcr1 : checkR v1 (data.map (fun f => f.dbuf)) = .ok () := by
      rw [hv1]
      simpa using hcr
    have ha1 : v1.isAttached = true := by
      rw [hv1]
      exact ha
    simp [reader, checkImageFileOpen, himf2, ho, hwc, hrc, hd, hcr1, ha1,
      CompressedVectorReaderImpl.new]
  have h5 : ∀ (sec : BinarySection) (r : CompressedVectorReaderImpl),
      sec = { payloads := data.map (fun f =>
                cutPayloads
                  (cuts f.type (encodeColumn f.type (f.array.take n) ++
                    padding f.type (encodeColumn f.type (f.array.take n))))
                  (encodeColumn f.type (f.array.take n) ++
                    padding f.type (encodeColumn f.type (f.array.take n)))),
              recordCount := 0 + n } →
      r.isOpen_ = true → r.dbufs_ = data.map (fun f => f.dbuf) →
      ∃ r1, (ReadSession.start (data.map (fun f => f.type)) sec r).read conv =
        .ok (n, data.map (fun f => f.array.take n), r1) := by
    intro sec r hsec hopen hbufs
    refine ⟨{ impl := r, fields := data.map (fun f => f.type), data := sec, cursor := 0 + n }, ?_⟩
    simp only [ReadSession.read, ReadSession.start, hopen, hbufs, hsec, Bool.not_true,
      Bool.false_eq_true, if_false, Nat.sub_zero, Nat.zero_add, Nat.min_eq_right hcapd,
      readStreams_bound conv cuts n data hmatch]
  obtain ⟨r1, hr1⟩ := h5
    { payloads := (data.map (fun f =>
        ({ type := f.type, buffer := f.sbuf,
           cells := encodeColumn f.type (f.array.take n) } : Bytestream))).map (fun st =>
          cutPayloads (cuts st.type (st.cells ++ padding st.type st.cells))
            (st.cells ++ padding st.type st.cells)),
      recordCount := 0 + n }
    { cVector_ := { v with
        recordCount_ := Int.ofNat (0 + n)
        binarySectionLogicalStart_ := sectionLogicalStart },
      dbufs_ := data.map (fun f => f.dbuf), isOpen_ := true }
    (by simp only [List.map_map, Function.comp_def]) rfl rfl
  refine ⟨_, _, _, _, _, _, _, _, _, r1, h1, h2, rfl, ?_, ?_, rfl, ?_, ?_, h4 _ _ rfl rfl, hr1⟩
  · simp
  · simp
  · simp [hwc]
  · simp [hrc]

/-- Three records over two integer fields, a float field and a string field, written on the
attached vector `pointsVector` of `scanFile` in packets of sixteen cells and read back: the
buffers hold what was written; a field over 0..100 takes 7 bits, a field with one value none,
and the first column is sent as the 21 bits of 0, 100 and 42. -/
theorem write_read_roundtrip_witness :
    (∀ f ∈ sampleFields, f.matching 3 = true) ∧
    (∃ w imf1 s1 sec v1 w1 imf2 r imf3 r1,
      pointsVector.writer acceptBuffers scanFile (sampleFields.map (fun f => f.sbuf))
        = .ok (w, imf1) ∧
      (WriteSession.start (sampleFields.map (fun f => f.type)) w).write noConversions
        (sampleFields.map (fun f => f.array)) 3 = .ok s1 ∧
      s1.close sixteenCells imf1 2040 = .ok (sec, v1, w1, imf2) ∧
      v1.recordCount_ = (3 : Nat) ∧ sec.recordCount = 3 ∧ w1.isOpen_ = false ∧
      imf2.writerCount = 0 ∧ imf2.readerCount = 0 ∧
      v1.reader acceptBuffers imf2 (sampleFields.map (fun f => f.dbuf)) = .ok (r, imf3) ∧
      (ReadSession.start (sampleFields.map (fun f => f.type)) sec r).read noConversions
        = .ok (3, sampleFields.map (fun f => f.array.take 3), r1)) ∧
    sampleFields.map (fun f => f.array.take 3) =
      [[.integer 0, .integer 100, .integer 42],
       [.integer (-50), .integer 50, .integer 0],
       [.float .single 1065353216, .float .single 3221225472, .float .single 0],
       [.ustring [], .ustring [97, 98, 99], .ustring [206, 177, 206, 178, 206, 179]]] ∧
    bitsPerRecord 0 100 = 7 ∧ bitsPerRecord 5 5 = 0 ∧
    encodeColumn (.integer 0 100) [.integer 0, .integer 100, .integer 42] =
      [0, 0, 0, 0, 0, 0, 0, 0, 0, 1, 0, 0, 1, 1, 0, 1, 0, 1, 0, 1, 0] :=
  ⟨by decide,
    write_read_roundtrip acceptBuffers acceptBuffers noConversions sixteenCells pointsVector
      scanFile 2040 sampleFields 3 (by simp [sampleFields]) rfl rfl rfl rfl rfl rfl rfl
      (by decide),
    rfl, by decide, by decide, by decide⟩

end e57
